import Mathlib

/-! ADAQDigitizer: a shallow embedding of the digitizer control layer.

The C++ class ADAQDigitizer (src/adaq/src/ADAQDigitizer.cc) drives a CAEN
waveform digitizer through the vendor library CAENDigitizer.  Neither the
vendor library nor the class header ADAQDigitizer.hh / the base class
ADAQVBoard are among the sources, so everything they declare is gathered in
one parameter, the structure CAEN: the vendor's constants, the vendor's
functions and the thin member wrappers of the header.  The state of the
vendor library and of the board behind it is an arbitrary type T.

Every member function becomes a function on a World: the member variables of
the object, the state of the hardware, and the list of calls made to the
vendor library so far, in the order they were made.  Out parameters
(uint32_t *Data32) are modelled as a value passed in and a value passed out; a
library call that does not store through the pointer returns none and the
variable keeps its value.  Text written to std::cout is not modelled.
-/

namespace ADAQ

/-! ## Machine integers -/

/-- Conversion of an unsigned 32-bit value to int (two's complement). -/
def toInt32 (n : Nat) : Int :=
  if n % 2 ^ 32 < 2 ^ 31 then ((n % 2 ^ 32 : Nat) : Int)
  else ((n % 2 ^ 32 : Nat) : Int) - 2 ^ 32

/-- Conversion of an int to uint32_t: reduction modulo 2^32. -/
def toUInt32 (i : Int) : Nat := (i % 2 ^ 32).toNat

/-- The value a 32-bit int holds for the mathematical result i of an int
operation: i itself when it is in range, and the two's complement wrap-around
that the machine computes when it is not (INT_MIN - 1 is INT_MAX). -/
def wrapInt32 (i : Int) : Int := toInt32 (toUInt32 i)

/-! ## What the vendor header declares -/

/-- The physical link kinds of the vendor library; the source only uses USB. -/
inductive CAEN_DGTZ_ConnectionType where
  | CAEN_DGTZ_USB
  deriving DecidableEq, Repr

/-- Trigger modes of the vendor library that the source names. -/
inductive CAEN_DGTZ_TriggerMode_t where
  | CAEN_DGTZ_TRGMODE_DISABLED
  | CAEN_DGTZ_TRGMODE_ACQ_ONLY
  | CAEN_DGTZ_TRGMODE_ACQ_AND_EXTOUT
  deriving DecidableEq, Repr

/-- Trigger polarities of the vendor library. -/
inductive CAEN_DGTZ_TriggerPolarity_t where
  | CAEN_DGTZ_TriggerOnRisingEdge
  | CAEN_DGTZ_TriggerOnFallingEdge
  deriving DecidableEq, Repr

/-- Acquisition modes of the vendor library that the source names. -/
inductive CAEN_DGTZ_AcqMode_t where
  | CAEN_DGTZ_SW_CONTROLLED
  | CAEN_DGTZ_S_IN_CONTROLLED
  deriving DecidableEq, Repr

/-- Zero suppression modes of the vendor library that the source names. -/
inductive CAEN_DGTZ_ZS_Mode_t where
  | CAEN_DGTZ_ZS_NO
  | CAEN_DGTZ_ZS_ZLE
  deriving DecidableEq, Repr

/-- The fields of CAEN_DGTZ_BoardInfo_t that OpenLink stores; the other fields
(model name, firmware releases, serial number) are only printed. -/
structure CAEN_DGTZ_BoardInfo_t where
  Channels : Nat
  ADC_NBits : Nat
  deriving DecidableEq, Repr

/-- One call made to the vendor library, with the arguments it was given.
The first argument of every call but OpenDigitizer is the board handle. -/
inductive Call where
  | OpenDigitizer (link : CAEN_DGTZ_ConnectionType) (linkNum conetNode : Int) (address : Nat)
  | CloseDigitizer (handle : Int)
  | GetInfo (handle : Int)
  | ReadRegister (handle : Int) (address : Nat)
  | WriteRegister (handle : Int) (address data : Nat)
  | SetExtTriggerInputMode (handle : Int) (mode : CAEN_DGTZ_TriggerMode_t)
  | SetSWTriggerMode (handle : Int) (mode : CAEN_DGTZ_TriggerMode_t)
  | SetChannelSelfTrigger (handle : Int) (mode : CAEN_DGTZ_TriggerMode_t) (mask : Nat)
  | SetTriggerPolarity (handle : Int) (channel : Int) (polarity : CAEN_DGTZ_TriggerPolarity_t)
  | SetAcquisitionMode (handle : Int) (mode : CAEN_DGTZ_AcqMode_t)
  | SetZeroSuppressionMode (handle : Int) (mode : CAEN_DGTZ_ZS_Mode_t)
  | GetChannelEnableMask (handle : Int)
  deriving DecidableEq, Repr

/-- Modelled from the spec: the vendor library CAENDigitizer and the member
wrappers of the absent header ADAQDigitizer.hh, over a hardware state T.
The status constant Success is only known to differ from the sentinel -42
(the sentinel is distinct from success); the register addresses are the
vendor's macros; each function maps the hardware state and the arguments to
a status, the value stored through the out pointer if any, and the next
hardware state. -/
structure CAEN (T : Type) where
  CAEN_DGTZ_Success : Int
  Success_ne_sentinel : CAEN_DGTZ_Success ≠ -42
  CAEN_DGTZ_SW_RESET_ADD : Nat
  CAEN_DGTZ_VME_CONTROL_ADD : Nat
  CAEN_DGTZ_FRONT_PANEL_IO_CTRL_ADD : Nat
  CAEN_DGTZ_TRIGGER_SRC_ENABLE_ADD : Nat
  CAEN_DGTZ_FP_TRIGGER_OUT_ENABLE_ADD : Nat
  CAEN_DGTZ_BROAD_CH_CTRL_ADD : Nat
  CAEN_DGTZ_CHANNEL_STATUS_BASE_ADDRESS : Nat
  CAEN_DGTZ_EVENT_STORED_ADD : Nat
  OpenDigitizer : T → CAEN_DGTZ_ConnectionType → Int → Int → Nat → Int × Option Int × T
  CloseDigitizer : T → Int → Int × T
  GetInfo : T → Int → Int × CAEN_DGTZ_BoardInfo_t × T
  ReadRegister : T → Int → Nat → Int × Option Nat × T
  WriteRegister : T → Int → Nat → Nat → Int × T
  SetExtTriggerInputMode : T → Int → CAEN_DGTZ_TriggerMode_t → Int × T
  SetSWTriggerMode : T → Int → CAEN_DGTZ_TriggerMode_t → Int × T
  SetChannelSelfTrigger : T → Int → CAEN_DGTZ_TriggerMode_t → Nat → Int × T
  SetTriggerPolarity : T → Int → Int → CAEN_DGTZ_TriggerPolarity_t → Int × T
  SetAcquisitionMode : T → Int → CAEN_DGTZ_AcqMode_t → Int × T
  SetZeroSuppressionMode : T → Int → CAEN_DGTZ_ZS_Mode_t → Int × T
  GetChannelEnableMask : T → Int → Int × Option Nat × T

/-! ## The object and the world around it -/

/-- The member variables of an ADAQDigitizer object: those of the base class
ADAQVBoard that the source reads or writes, and the four of the class itself.
The members are taken to be of type int, as the loop variable compared with
NumChannels is. -/
structure ADAQDigitizer where
  BoardID : Int
  BoardAddress : Nat
  BoardHandle : Int
  Verbose : Bool
  LinkEstablished : Bool
  CommandStatus : Int
  NumChannels : Int
  NumADCBits : Int
  MinADCBit : Int
  MaxADCBit : Int
  deriving DecidableEq, Repr

/-- The object, the hardware behind the vendor library, and the calls made to
the library so far (oldest first). -/
structure World (T : Type) where
  self : ADAQDigitizer
  hw : T
  trace : List Call

/-- Assignment to the member CommandStatus. -/
def World.setStatus {T : Type} (w : World T) (s : Int) : World T :=
  { w with self := { w.self with CommandStatus := s } }

/-- The world after a library call: next hardware state, call recorded. -/
def World.called {T : Type} (w : World T) (c : Call) (t : T) : World T :=
  { w with hw := t, trace := w.trace ++ [c] }

/-! ## Calls to the vendor library with the object's handle -/

/-- The call CAEN_DGTZ_ReadRegister(BoardHandle, Addr32, Data32); the argument
Data32 is the value of the pointee before the call. -/
def CAEN_DGTZ_ReadRegister {T : Type} (L : CAEN T) (w : World T) (Addr32 Data32 : Nat) :
    Int × Nat × World T :=
  let r := L.ReadRegister w.hw w.self.BoardHandle Addr32
  (r.1, r.2.1.getD Data32, w.called (Call.ReadRegister w.self.BoardHandle Addr32) r.2.2)

/-- The call CAEN_DGTZ_WriteRegister(BoardHandle, Addr32, Data32). -/
def CAEN_DGTZ_WriteRegister {T : Type} (L : CAEN T) (w : World T) (Addr32 Data32 : Nat) :
    Int × World T :=
  let r := L.WriteRegister w.hw w.self.BoardHandle Addr32 Data32
  (r.1, w.called (Call.WriteRegister w.self.BoardHandle Addr32 Data32) r.2)

/-- The header wrapper SetExtTriggerInputMode(Mode). -/
def SetExtTriggerInputMode {T : Type} (L : CAEN T) (w : World T)
    (Mode : CAEN_DGTZ_TriggerMode_t) : Int × World T :=
  let r := L.SetExtTriggerInputMode w.hw w.self.BoardHandle Mode
  (r.1, w.called (Call.SetExtTriggerInputMode w.self.BoardHandle Mode) r.2)

/-- The header wrapper GetChannelEnableMask(Data32). -/
def GetChannelEnableMask {T : Type} (L : CAEN T) (w : World T) (Data32 : Nat) :
    Int × Nat × World T :=
  let r := L.GetChannelEnableMask w.hw w.self.BoardHandle
  (r.1, r.2.1.getD Data32, w.called (Call.GetChannelEnableMask w.self.BoardHandle) r.2.2)

/-- The header wrapper SetTriggerPolarity(Channel, Polarity). -/
def SetTriggerPolarity {T : Type} (L : CAEN T) (w : World T) (Channel : Int)
    (Polarity : CAEN_DGTZ_TriggerPolarity_t) : Int × World T :=
  let r := L.SetTriggerPolarity w.hw w.self.BoardHandle Channel Polarity
  (r.1, w.called (Call.SetTriggerPolarity w.self.BoardHandle Channel Polarity) r.2)

/-- The header wrapper SetAcquisitionMode(CAEN_DGTZ_AcqMode_t), the overload
that the string version of the source calls. -/
def SetAcquisitionMode_enum {T : Type} (L : CAEN T) (w : World T)
    (Mode : CAEN_DGTZ_AcqMode_t) : Int × World T :=
  let r := L.SetAcquisitionMode w.hw w.self.BoardHandle Mode
  (r.1, w.called (Call.SetAcquisitionMode w.self.BoardHandle Mode) r.2)

/-- The header wrapper SetZeroSuppressionMode(Mode). -/
def SetZeroSuppressionMode {T : Type} (L : CAEN T) (w : World T)
    (Mode : CAEN_DGTZ_ZS_Mode_t) : Int × World T :=
  let r := L.SetZeroSuppressionMode w.hw w.self.BoardHandle Mode
  (r.1, w.called (Call.SetZeroSuppressionMode w.self.BoardHandle Mode) r.2)

/-! ## Construction -/

/-- ADAQDigitizer::ADAQDigitizer (lines 26-29).  The base class constructor
ADAQVBoard(Type, ID, Address) is not among the sources: the argument is the
object with the inherited members as that constructor leaves them; the
constructor of the class then sets its own four members to 0. -/
def ADAQDigitizer.construct (base : ADAQDigitizer) : ADAQDigitizer :=
  { base with NumChannels := 0, NumADCBits := 0, MinADCBit := 0, MaxADCBit := 0 }

/-! ## Link management -/

/-- ADAQDigitizer::OpenLink (lines 39-90).  The members are 32-bit ints:
the unsigned fields of the board information are converted on assignment and
NumADCBits - 1 is computed in int arithmetic. -/
def OpenLink {T : Type} (L : CAEN T) (w : World T) : Int × World T :=
  let w1 := w.setStatus (-42)
  let w2 :=
    if w1.self.LinkEstablished then w1
    else
      let r := L.OpenDigitizer w1.hw CAEN_DGTZ_ConnectionType.CAEN_DGTZ_USB 0 0
        w1.self.BoardAddress
      let w1a := w1.called
        (Call.OpenDigitizer CAEN_DGTZ_ConnectionType.CAEN_DGTZ_USB 0 0 w1.self.BoardAddress)
        r.2.2
      { w1a with self := { w1a.self with
          BoardHandle := r.2.1.getD w1a.self.BoardHandle
          CommandStatus := r.1 } }
  let w3 :=
    if w2.self.CommandStatus = L.CAEN_DGTZ_Success then
      let w2a := { w2 with self := { w2.self with LinkEstablished := true } }
      if w2a.self.Verbose then
        let r := L.GetInfo w2a.hw w2a.self.BoardHandle
        let BoardInformation := r.2.1
        let w2b := w2a.called (Call.GetInfo w2a.self.BoardHandle) r.2.2
        let NumChannels := toInt32 BoardInformation.Channels
        let NumADCBits := toInt32 BoardInformation.ADC_NBits
        { w2b with self := { w2b.self with
            NumChannels := NumChannels
            NumADCBits := NumADCBits
            MinADCBit := 0
            MaxADCBit := wrapInt32 (NumADCBits - 1) } }
      else w2a
    else w2
  (w3.self.CommandStatus, w3)

/-- ADAQDigitizer::CloseLink (lines 93-118). -/
def CloseLink {T : Type} (L : CAEN T) (w : World T) : Int × World T :=
  let w1 := w.setStatus (-42)
  let w2 :=
    if w1.self.LinkEstablished then
      let r := L.CloseDigitizer w1.hw w1.self.BoardHandle
      (w1.called (Call.CloseDigitizer w1.self.BoardHandle) r.2).setStatus r.1
    else w1
  let w3 :=
    if w2.self.CommandStatus = L.CAEN_DGTZ_Success then
      { w2 with self := { w2.self with LinkEstablished := false } }
    else w2
  (w3.self.CommandStatus, w3)

/-! ## Initialisation -/

/-- ADAQDigitizer::Initialize (lines 121-140): six calls of
CAEN_DGTZ_WriteRegister whose statuses are dropped.  The function is declared
int and has no return statement, so the model yields the world only. -/
def Initialize {T : Type} (L : CAEN T) (w : World T) : World T :=
  let w1 := (CAEN_DGTZ_WriteRegister L w L.CAEN_DGTZ_SW_RESET_ADD 0x00000000).2
  let w2 := (CAEN_DGTZ_WriteRegister L w1 L.CAEN_DGTZ_VME_CONTROL_ADD 0x00000010).2
  let w3 := (CAEN_DGTZ_WriteRegister L w2 L.CAEN_DGTZ_FRONT_PANEL_IO_CTRL_ADD 0x00000000).2
  let w4 := (CAEN_DGTZ_WriteRegister L w3 L.CAEN_DGTZ_TRIGGER_SRC_ENABLE_ADD 0xC0000080).2
  let w5 := (CAEN_DGTZ_WriteRegister L w4 L.CAEN_DGTZ_FP_TRIGGER_OUT_ENABLE_ADD 0x00000000).2
  let w6 := (CAEN_DGTZ_WriteRegister L w5 L.CAEN_DGTZ_BROAD_CH_CTRL_ADD 0x00000050).2
  w6

/-! ## Register access -/

/-- ADAQDigitizer::SetRegisterValue (lines 143-147). -/
def SetRegisterValue {T : Type} (L : CAEN T) (w : World T) (Addr32 Data32 : Nat) :
    Int × World T :=
  let r := CAEN_DGTZ_WriteRegister L w Addr32 Data32
  let w1 := r.2.setStatus r.1
  (w1.self.CommandStatus, w1)

/-- ADAQDigitizer::GetRegisterValue (lines 150-154); Data32 is the value of the
pointee before the call, the second component its value after. -/
def GetRegisterValue {T : Type} (L : CAEN T) (w : World T) (Addr32 Data32 : Nat) :
    Int × Nat × World T :=
  let r := CAEN_DGTZ_ReadRegister L w Addr32 Data32
  let w1 := r.2.2.setStatus r.1
  (w1.self.CommandStatus, r.2.1, w1)

/-! ## Triggering methods -/

/-- ADAQDigitizer::EnableExternalTrigger (lines 173-197).  The int constant
~(1<<0) is -2; and-ing it into a uint32_t converts it to 0xFFFFFFFE. -/
def EnableExternalTrigger {T : Type} (L : CAEN T) (w : World T) (SignalLogic : String) :
    Int × World T :=
  let r0 := SetExtTriggerInputMode L w
    CAEN_DGTZ_TriggerMode_t.CAEN_DGTZ_TRGMODE_ACQ_AND_EXTOUT
  let w1 := r0.2.setStatus r0.1
  let FrontPanelIOControlRegister := L.CAEN_DGTZ_FRONT_PANEL_IO_CTRL_ADD
  let FrontPanelIOControlValue := 0
  let r1 := GetRegisterValue L w1 FrontPanelIOControlRegister FrontPanelIOControlValue
  let w2 := r1.2.2.setStatus r1.1
  let FrontPanelIOControlValue := r1.2.1
  let FrontPanelIOControlValue :=
    if SignalLogic = "NIM" then FrontPanelIOControlValue &&& toUInt32 (-2)
    else if SignalLogic = "TTL" then FrontPanelIOControlValue ||| 1
    else FrontPanelIOControlValue
  let r2 := SetRegisterValue L w2 FrontPanelIOControlRegister FrontPanelIOControlValue
  let w3 := r2.2.setStatus r2.1
  (w3.self.CommandStatus, w3)

/-- ADAQDigitizer::SetTriggerCoincidence (lines 242-259).  The int Level << 24
is Level * 2^24, stored in a uint32_t, hence reduced modulo 2^32. -/
def SetTriggerCoincidence {T : Type} (L : CAEN T) (w : World T) (Enable : Bool) (Level : Int) :
    Int × World T :=
  let w1 := w.setStatus (-42)
  let w2 :=
    if Enable then
      let TriggerSourceEnableMask := 0
      let TriggerCoincidenceLevel_BitShifted := toUInt32 (Level * 2 ^ 24)
      let r1 := GetRegisterValue L w1 0x810C TriggerSourceEnableMask
      let w1a := r1.2.2.setStatus r1.1
      let TriggerSourceEnableMask := r1.2.1
      let TriggerSourceEnableMask := TriggerSourceEnableMask ||| TriggerCoincidenceLevel_BitShifted
      let r2 := SetRegisterValue L w1a 0x810C TriggerSourceEnableMask
      r2.2.setStatus r2.1
    else w1
  (w2.self.CommandStatus, w2)

/-- ADAQDigitizer::SetTriggerEdge (lines 221-239). -/
def SetTriggerEdge {T : Type} (L : CAEN T) (w : World T) (Channel : Int)
    (TriggerEdge : String) : Int × World T :=
  let w1 := w.setStatus (-42)
  let w2 :=
    if TriggerEdge = "Rising" then
      let r := SetTriggerPolarity L w1 Channel
        CAEN_DGTZ_TriggerPolarity_t.CAEN_DGTZ_TriggerOnRisingEdge
      r.2.setStatus r.1
    else if TriggerEdge = "Falling" then
      let r := SetTriggerPolarity L w1 Channel
        CAEN_DGTZ_TriggerPolarity_t.CAEN_DGTZ_TriggerOnFallingEdge
      r.2.setStatus r.1
    else w1
  (w2.self.CommandStatus, w2)

/-! ## Acquisition methods -/

/-- ADAQDigitizer::SetAcquisitionMode(string) (lines 266-282). -/
def SetAcquisitionMode {T : Type} (L : CAEN T) (w : World T) (AcqMode : String) :
    Int × World T :=
  let w1 := w.setStatus (-42)
  let w2 :=
    if AcqMode = "Software" then
      let r := SetAcquisitionMode_enum L w1 CAEN_DGTZ_AcqMode_t.CAEN_DGTZ_SW_CONTROLLED
      r.2.setStatus r.1
    else if AcqMode = "SIn" then
      let r := SetAcquisitionMode_enum L w1 CAEN_DGTZ_AcqMode_t.CAEN_DGTZ_S_IN_CONTROLLED
      r.2.setStatus r.1
    else w1
  (w2.self.CommandStatus, w2)

/-- ADAQDigitizer::SetZSMode (lines 285-301). -/
def SetZSMode {T : Type} (L : CAEN T) (w : World T) (ZSMode : String) : Int × World T :=
  let w1 := w.setStatus (-42)
  let w2 :=
    if ZSMode = "None" then
      let r := SetZeroSuppressionMode L w1 CAEN_DGTZ_ZS_Mode_t.CAEN_DGTZ_ZS_NO
      r.2.setStatus r.1
    else if ZSMode = "ZLE" then
      let r := SetZeroSuppressionMode L w1 CAEN_DGTZ_ZS_Mode_t.CAEN_DGTZ_ZS_ZLE
      r.2.setStatus r.1
    else w1
  (w2.self.CommandStatus, w2)

/-! ## Readout methods -/

/-- The body of the for loop of ADAQDigitizer::CheckBufferStatus (lines 329-344),
run for the n iterations that remain when the loop variable is ch; the body
never assigns NumChannels, so n is NumChannels - ch.  The array BufferStatus
is a function from indices to bool.  The int 1 << ch is 2^ch for ch below
32, converted to uint32_t by the and; C++ leaves the shift undefined from 32
on, where the shift instruction of the machine takes the count modulo 32, so
that channel 32 is tested against bit 0 of the mask: the model shifts by
ch % 32. -/
def CheckBufferStatus.loop {T : Type} (L : CAEN T) (Start Offset : Nat) :
    Nat → Nat → World T → (Nat → Bool) → World T × (Nat → Bool)
  | 0, _, w, BufferStatus => (w, BufferStatus)
  | n + 1, ch, w, BufferStatus =>
    let Addr32 := (Start + Offset * ch) % 2 ^ 32
    let Data32 := 0
    let r1 := GetChannelEnableMask L w Data32
    let w1 := r1.2.2.setStatus r1.1
    let Data32 := r1.2.1
    if Data32 &&& (1 <<< (ch % 32)) = 0 then
      CheckBufferStatus.loop L Start Offset n (ch + 1) w1 BufferStatus
    else
      let r2 := CAEN_DGTZ_ReadRegister L w1 Addr32 Data32
      let w2 := r2.2.2.setStatus r2.1
      let Data32 := r2.2.1
      let BufferStatus := Function.update BufferStatus ch (decide (Data32 &&& (1 <<< 0) ≠ 0))
      CheckBufferStatus.loop L Start Offset n (ch + 1) w2 BufferStatus

/-- ADAQDigitizer::CheckBufferStatus (lines 314-346): the returned status, the
world and the array after the call. -/
def CheckBufferStatus {T : Type} (L : CAEN T) (w : World T) (BufferStatus : Nat → Bool) :
    Int × World T × (Nat → Bool) :=
  let w1 := w.setStatus (-42)
  let Start := L.CAEN_DGTZ_CHANNEL_STATUS_BASE_ADDRESS
  let Offset := 0x0100
  let r := CheckBufferStatus.loop L Start Offset w1.self.NumChannels.toNat 0 w1 BufferStatus
  (r.1.self.CommandStatus, r.1, r.2)

/-- ADAQDigitizer::GetNumFPGAEvents (lines 349-354); Data32 is the value of
the pointee before the call, the second component its value after. -/
def GetNumFPGAEvents {T : Type} (L : CAEN T) (w : World T) (Data32 : Nat) :
    Int × Nat × World T :=
  let r := GetRegisterValue L w L.CAEN_DGTZ_EVENT_STORED_ADD Data32
  let w1 := r.2.2.setStatus r.1
  (w1.self.CommandStatus, r.2.1, w1)

/-! ## A mock register map -/

/-- The configuration of the mock: what the board-information query reports,
the handle an open delivers, the enabled-channel mask, and the effect of a
mode-set request on the register map (the vendor library implements such
requests by register accesses of its own). -/
structure MockConfig where
  info : CAEN_DGTZ_BoardInfo_t
  handle : Int
  mask : Nat
  modeEffect : (Nat → Nat) → (Nat → Nat)

/-- A simulated transport: the hardware state is the register map, a function
from addresses to values; every call succeeds with status 0; a read delivers
the value stored at the address and a write stores the value there.  The
register addresses are the customary values of the vendor's macros (0x810C is
the one the source itself writes out); no proof depends on the others beyond
their being 32-bit addresses. -/
def mock (cfg : MockConfig) : CAEN (Nat → Nat) where
  CAEN_DGTZ_Success := 0
  Success_ne_sentinel := by decide
  CAEN_DGTZ_SW_RESET_ADD := 0xEF24
  CAEN_DGTZ_VME_CONTROL_ADD := 0xEF00
  CAEN_DGTZ_FRONT_PANEL_IO_CTRL_ADD := 0x811C
  CAEN_DGTZ_TRIGGER_SRC_ENABLE_ADD := 0x810C
  CAEN_DGTZ_FP_TRIGGER_OUT_ENABLE_ADD := 0x8110
  CAEN_DGTZ_BROAD_CH_CTRL_ADD := 0x8000
  CAEN_DGTZ_CHANNEL_STATUS_BASE_ADDRESS := 0x1088
  CAEN_DGTZ_EVENT_STORED_ADD := 0x812C
  OpenDigitizer := fun regs _ _ _ _ => (0, some cfg.handle, regs)
  CloseDigitizer := fun regs _ => (0, regs)
  GetInfo := fun regs _ => (0, cfg.info, regs)
  ReadRegister := fun regs _ a => (0, some (regs a), regs)
  WriteRegister := fun regs _ a v => (0, Function.update regs a v)
  SetExtTriggerInputMode := fun regs _ _ => (0, cfg.modeEffect regs)
  SetSWTriggerMode := fun regs _ _ => (0, cfg.modeEffect regs)
  SetChannelSelfTrigger := fun regs _ _ _ => (0, cfg.modeEffect regs)
  SetTriggerPolarity := fun regs _ _ _ => (0, cfg.modeEffect regs)
  SetAcquisitionMode := fun regs _ _ => (0, cfg.modeEffect regs)
  SetZeroSuppressionMode := fun regs _ _ => (0, cfg.modeEffect regs)
  GetChannelEnableMask := fun regs _ => (0, some cfg.mask, regs)

/-- A simulated transport with failing reads: as the mock, but a read of the
address a reports the status readStatus a, and stores the register's value
through the pointer only when deliver is true. -/
def faulty (cfg : MockConfig) (readStatus : Nat → Int) (deliver : Bool) : CAEN (Nat → Nat) :=
  { mock cfg with
    ReadRegister := fun regs _ a => (readStatus a, if deliver then some (regs a) else none, regs) }

/-- An object as the constructor leaves it, at bus address 0 with the given
verbosity and link state, for the concrete instances below. -/
def board0 (verbose linked : Bool) : ADAQDigitizer :=
  { BoardID := 0, BoardAddress := 0, BoardHandle := 0, Verbose := verbose,
    LinkEstablished := linked, CommandStatus := 0,
    NumChannels := 0, NumADCBits := 0, MinADCBit := 0, MaxADCBit := 0 }

/-- A mock configuration: 8 channels of 12 bits, mode requests leave the
register map alone. -/
def cfg0 (mask : Nat) : MockConfig :=
  { info := { Channels := 8, ADC_NBits := 12 }, handle := 1, mask := mask, modeEffect := id }

/-- An open, quiet object with four channels. -/
def board4 : ADAQDigitizer := { board0 false true with NumChannels := 4 }

/-- A register map in which the status register of channel 0 (at 0x1088) reads
3, bit 0 set, and every other register reads 2, bit 0 clear. -/
def regs0 : Nat → Nat := fun a => if a = 0x1088 then 3 else 2

/-- A world on the mock with the given object and register map and no call made yet. -/
def world0 (b : ADAQDigitizer) (regs : Nat → Nat) : World (Nat → Nat) :=
  { self := b, hw := regs, trace := [] }

/-! ## Helper lemmas -/

theorem toInt32_of_lt (n : Nat) (h : n < 2 ^ 31) : toInt32 n = (n : Int) := by
  have h1 : n % 2 ^ 32 = n := Nat.mod_eq_of_lt (by omega)
  simp only [toInt32, h1]
  rw [if_pos h]

theorem toInt32_range (n : Nat) : -2 ^ 31 ≤ toInt32 n ∧ toInt32 n < 2 ^ 31 := by
  unfold toInt32
  split <;> omega

theorem toInt32_gt_min (n : Nat) (h : n % 2 ^ 32 ≠ 2 ^ 31) : -2 ^ 31 < toInt32 n := by
  unfold toInt32
  split <;> omega

theorem wrapInt32_of_range (i : Int) (h1 : -2 ^ 31 ≤ i) (h2 : i < 2 ^ 31) :
    wrapInt32 i = i := by
  unfold wrapInt32 toInt32 toUInt32
  split <;> omega

theorem toUInt32_neg_two : toUInt32 (-2) = 4294967294 := by decide

theorem toUInt32_shift (level : Nat) (h : level ≤ 15) :
    toUInt32 ((level : Int) * 2 ^ 24) = level <<< 24 := by
  have h1 : ((level : Int) * 2 ^ 24) = ((level * 2 ^ 24 : Nat) : Int) := by push_cast; ring
  have h2 : level * 2 ^ 24 < 2 ^ 32 := by omega
  rw [toUInt32, h1, Nat.shiftLeft_eq]
  have h3 : ((level * 2 ^ 24 : Nat) : Int) % 2 ^ 32 = ((level * 2 ^ 24 : Nat) : Int) := by
    apply Int.emod_eq_of_lt
    · exact Int.natCast_nonneg _
    · exact_mod_cast h2
  rw [h3, Int.toNat_natCast]

theorem or_mod_two_pow_eq (a b n : Nat) : (a ||| b) % 2 ^ n = a % 2 ^ n ||| b % 2 ^ n := by
  apply Nat.eq_of_testBit_eq
  intro i
  simp only [Nat.testBit_mod_two_pow, Nat.testBit_or, Bool.and_or_distrib_left]

theorem or_div_two_pow_eq (a b n : Nat) : (a ||| b) / 2 ^ n = a / 2 ^ n ||| b / 2 ^ n := by
  apply Nat.eq_of_testBit_eq
  intro i
  simp only [← Nat.shiftRight_eq_div_pow, Nat.testBit_shiftRight, Nat.testBit_or]

theorem or_and_self_eq (a b : Nat) : (a ||| b) &&& a = a := by
  apply Nat.eq_of_testBit_eq
  intro i
  simp only [Nat.testBit_and, Nat.testBit_or]
  cases a.testBit i <;> simp

theorem or_one_eq (v : Nat) : v ||| 1 = 2 * (v / 2) + 1 := by
  apply Nat.eq_of_testBit_eq
  intro i
  rw [Nat.testBit_or]
  cases i with
  | zero => simp [Nat.testBit_zero]; omega
  | succ i =>
    have h1 : (2 * (v / 2) + 1) / 2 = v / 2 := by omega
    have h2 : (1 : Nat) / 2 = 0 := by norm_num
    simp only [Nat.testBit_succ, h1, h2, Nat.zero_testBit, Bool.or_false]

theorem and_mask_eq (v : Nat) (hv : v < 2 ^ 32) : v &&& 4294967294 = 2 * (v / 2) := by
  apply Nat.eq_of_testBit_eq
  intro i
  rw [Nat.testBit_and]
  cases i with
  | zero => simp [Nat.testBit_zero]
  | succ i =>
    have h1 : (2 * (v / 2)) / 2 = v / 2 := by omega
    simp only [Nat.testBit_succ, h1]
    by_cases hi : i < 31
    · have : (4294967294 / 2).testBit i = true := by
        interval_cases i <;> decide
      rw [this, Bool.and_true]
    · have : (v / 2).testBit i = false := by
        apply Nat.testBit_lt_two_pow
        calc v / 2 < 2 ^ 31 := by omega
          _ ≤ 2 ^ i := Nat.pow_le_pow_right (by norm_num) (by omega)
      rw [this, Bool.false_and]

/-- The front-panel register after EnableExternalTrigger on the mock, when mode
requests leave that register alone. -/
theorem EnableExternalTrigger_mock_reg (cfg : MockConfig) (w : World (Nat → Nat)) (s : String)
    (hmode : ∀ regs, cfg.modeEffect regs (mock cfg).CAEN_DGTZ_FRONT_PANEL_IO_CTRL_ADD =
      regs (mock cfg).CAEN_DGTZ_FRONT_PANEL_IO_CTRL_ADD) :
    (EnableExternalTrigger (mock cfg) w s).2.hw (mock cfg).CAEN_DGTZ_FRONT_PANEL_IO_CTRL_ADD =
      if s = "NIM" then w.hw (mock cfg).CAEN_DGTZ_FRONT_PANEL_IO_CTRL_ADD &&& toUInt32 (-2)
      else if s = "TTL" then w.hw (mock cfg).CAEN_DGTZ_FRONT_PANEL_IO_CTRL_ADD ||| 1
      else w.hw (mock cfg).CAEN_DGTZ_FRONT_PANEL_IO_CTRL_ADD := by
  have hm := hmode w.hw
  simp only [mock] at hm
  simp [EnableExternalTrigger, SetExtTriggerInputMode, GetRegisterValue, SetRegisterValue,
    CAEN_DGTZ_ReadRegister, CAEN_DGTZ_WriteRegister, World.setStatus, World.called, mock, hm]

/-- The register 0x810C after SetTriggerCoincidence(true, Level) on the mock. -/
theorem SetTriggerCoincidence_mock_reg (cfg : MockConfig) (w : World (Nat → Nat)) (Level : Int) :
    (SetTriggerCoincidence (mock cfg) w true Level).2.hw 0x810C =
      w.hw 0x810C ||| toUInt32 (Level * 2 ^ 24) := by
  simp [SetTriggerCoincidence, GetRegisterValue, SetRegisterValue,
    CAEN_DGTZ_ReadRegister, CAEN_DGTZ_WriteRegister, World.setStatus, World.called, mock]

theorem toUInt32_shift_low (Level : Int) : toUInt32 (Level * 2 ^ 24) % 2 ^ 24 = 0 := by
  unfold toUInt32
  omega

/-! ## Link management -/

/-- C1: a wrong-state link call is a no-op on the hardware.  OpenLink on an
open link and CloseLink on a closed link return the sentinel -42, make no call
to the vendor library (the trace is unchanged), leave the hardware state
unchanged, and change no member but CommandStatus, so the link state stays
what it was. -/
theorem wrong_state_link_noop {T : Type} (L : CAEN T) (w : World T) :
    (w.self.LinkEstablished = true →
      (OpenLink L w).1 = -42 ∧ (OpenLink L w).2.trace = w.trace ∧
      (OpenLink L w).2.hw = w.hw ∧
      (OpenLink L w).2.self = { w.self with CommandStatus := -42 } ∧
      (OpenLink L w).2.self.LinkEstablished = true) ∧
    (w.self.LinkEstablished = false →
      (CloseLink L w).1 = -42 ∧ (CloseLink L w).2.trace = w.trace ∧
      (CloseLink L w).2.hw = w.hw ∧
      (CloseLink L w).2.self = { w.self with CommandStatus := -42 } ∧
      (CloseLink L w).2.self.LinkEstablished = false) := by
  have hS : ¬ ((-42 : Int) = L.CAEN_DGTZ_Success) := fun h => L.Success_ne_sentinel h.symm
  constructor
  · intro h
    simp [OpenLink, World.setStatus, h, hS]
  · intro h
    simp [CloseLink, World.setStatus, h, hS]

/-- Witness for C1 on the mock: an open link for OpenLink, a closed one for
CloseLink. -/
theorem wrong_state_link_noop_witness :
    ((world0 (board0 true true) (fun _ => 0)).self.LinkEstablished = true ∧
      (OpenLink (mock (cfg0 0)) (world0 (board0 true true) (fun _ => 0))).1 = -42 ∧
      (OpenLink (mock (cfg0 0)) (world0 (board0 true true) (fun _ => 0))).2.trace = []) ∧
    ((world0 (board0 true false) (fun _ => 0)).self.LinkEstablished = false ∧
      (CloseLink (mock (cfg0 0)) (world0 (board0 true false) (fun _ => 0))).1 = -42 ∧
      (CloseLink (mock (cfg0 0)) (world0 (board0 true false) (fun _ => 0))).2.trace = []) :=
  ⟨⟨rfl, ((wrong_state_link_noop (mock (cfg0 0))
        (world0 (board0 true true) (fun _ => 0))).1 rfl).1,
      ((wrong_state_link_noop (mock (cfg0 0))
        (world0 (board0 true true) (fun _ => 0))).1 rfl).2.1⟩,
    ⟨rfl, ((wrong_state_link_noop (mock (cfg0 0))
        (world0 (board0 true false) (fun _ => 0))).2 rfl).1,
      ((wrong_state_link_noop (mock (cfg0 0))
        (world0 (board0 true false) (fun _ => 0))).2 rfl).2.1⟩⟩

/-- C2: the link state machine.  From Closed, OpenLink returns the status of
the transport's open and the link is Open afterwards exactly when that status
is success.  From Open, CloseLink returns the status of the transport's close
and the link is Closed afterwards exactly when that status is success.  On a
transport whose open and close always succeed, OpenLink, CloseLink, OpenLink
from Closed each return success and the link is Open, Closed, Open after
them. -/
theorem link_state_machine {T : Type} (L : CAEN T) (w : World T) :
    (w.self.LinkEstablished = false →
      (OpenLink L w).1 =
        (L.OpenDigitizer w.hw CAEN_DGTZ_ConnectionType.CAEN_DGTZ_USB 0 0
          w.self.BoardAddress).1 ∧
      ((OpenLink L w).2.self.LinkEstablished = true ↔
        (L.OpenDigitizer w.hw CAEN_DGTZ_ConnectionType.CAEN_DGTZ_USB 0 0
          w.self.BoardAddress).1 = L.CAEN_DGTZ_Success)) ∧
    (w.self.LinkEstablished = true →
      (CloseLink L w).1 = (L.CloseDigitizer w.hw w.self.BoardHandle).1 ∧
      ((CloseLink L w).2.self.LinkEstablished = false ↔
        (L.CloseDigitizer w.hw w.self.BoardHandle).1 = L.CAEN_DGTZ_Success)) ∧
    ((∀ t k a b c, (L.OpenDigitizer t k a b c).1 = L.CAEN_DGTZ_Success) →
      (∀ t h, (L.CloseDigitizer t h).1 = L.CAEN_DGTZ_Success) →
      w.self.LinkEstablished = false →
      (OpenLink L w).1 = L.CAEN_DGTZ_Success ∧
      (OpenLink L w).2.self.LinkEstablished = true ∧
      (CloseLink L (OpenLink L w).2).1 = L.CAEN_DGTZ_Success ∧
      (CloseLink L (OpenLink L w).2).2.self.LinkEstablished = false ∧
      (OpenLink L (CloseLink L (OpenLink L w).2).2).1 = L.CAEN_DGTZ_Success ∧
      (OpenLink L (CloseLink L (OpenLink L w).2).2).2.self.LinkEstablished = true) := by
  have hopen : ∀ v : World T, v.self.LinkEstablished = false →
      (OpenLink L v).1 =
        (L.OpenDigitizer v.hw CAEN_DGTZ_ConnectionType.CAEN_DGTZ_USB 0 0
          v.self.BoardAddress).1 ∧
      ((OpenLink L v).2.self.LinkEstablished = true ↔
        (L.OpenDigitizer v.hw CAEN_DGTZ_ConnectionType.CAEN_DGTZ_USB 0 0
          v.self.BoardAddress).1 = L.CAEN_DGTZ_Success) := by
    intro v h
    by_cases hs : (L.OpenDigitizer v.hw CAEN_DGTZ_ConnectionType.CAEN_DGTZ_USB 0 0
        v.self.BoardAddress).1 = L.CAEN_DGTZ_Success
    · by_cases hv : v.self.Verbose = true <;>
        simp [OpenLink, World.setStatus, World.called, h, hs, hv]
    · simp [OpenLink, World.setStatus, World.called, h, hs]
  have hclose : ∀ v : World T, v.self.LinkEstablished = true →
      (CloseLink L v).1 = (L.CloseDigitizer v.hw v.self.BoardHandle).1 ∧
      ((CloseLink L v).2.self.LinkEstablished = false ↔
        (L.CloseDigitizer v.hw v.self.BoardHandle).1 = L.CAEN_DGTZ_Success) := by
    intro v h
    by_cases hs : (L.CloseDigitizer v.hw v.self.BoardHandle).1 = L.CAEN_DGTZ_Success
    · simp [CloseLink, World.setStatus, World.called, h, hs]
    · simp [CloseLink, World.setStatus, World.called, h, hs]
  refine ⟨hopen w, hclose w, ?_⟩
  intro ho hc h
  have o1 := hopen w h
  have l1 : (OpenLink L w).2.self.LinkEstablished = true := o1.2.2 (ho _ _ _ _ _)
  have c2 := hclose (OpenLink L w).2 l1
  have l2 : (CloseLink L (OpenLink L w).2).2.self.LinkEstablished = false :=
    c2.2.2 (hc _ _)
  have o3 := hopen (CloseLink L (OpenLink L w).2).2 l2
  exact ⟨o1.1.trans (ho _ _ _ _ _), l1, c2.1.trans (hc _ _), l2,
    o3.1.trans (ho _ _ _ _ _), o3.2.2 (ho _ _ _ _ _)⟩

/-- Witness for C2 on the mock: the three parts at a closed link, an open link
and the always-succeeding mock transport. -/
theorem link_state_machine_witness :
    ((world0 (board0 false false) (fun _ => 0)).self.LinkEstablished = false ∧
      ((OpenLink (mock (cfg0 0)) (world0 (board0 false false) (fun _ => 0))).2.self.LinkEstablished
          = true ↔
        ((mock (cfg0 0)).OpenDigitizer (fun _ => 0) CAEN_DGTZ_ConnectionType.CAEN_DGTZ_USB 0 0 0).1
          = (mock (cfg0 0)).CAEN_DGTZ_Success)) ∧
    ((world0 (board0 false true) (fun _ => 0)).self.LinkEstablished = true ∧
      (CloseLink (mock (cfg0 0)) (world0 (board0 false true) (fun _ => 0))).1 =
        ((mock (cfg0 0)).CloseDigitizer (fun _ => 0) 0).1) ∧
    ((∀ t k a b c, ((mock (cfg0 0)).OpenDigitizer t k a b c).1
        = (mock (cfg0 0)).CAEN_DGTZ_Success) ∧
      (∀ t h, ((mock (cfg0 0)).CloseDigitizer t h).1 = (mock (cfg0 0)).CAEN_DGTZ_Success) ∧
      (OpenLink (mock (cfg0 0))
        (CloseLink (mock (cfg0 0))
          (OpenLink (mock (cfg0 0)) (world0 (board0 false false) (fun _ => 0))).2).2).2.self.LinkEstablished
        = true) :=
  ⟨⟨rfl, ((link_state_machine (mock (cfg0 0))
        (world0 (board0 false false) (fun _ => 0))).1 rfl).2⟩,
    ⟨rfl, ((link_state_machine (mock (cfg0 0))
        (world0 (board0 false true) (fun _ => 0))).2.1 rfl).1⟩,
    ⟨fun _ _ _ _ _ => rfl, fun _ _ => rfl,
      ((link_state_machine (mock (cfg0 0))
        (world0 (board0 false false) (fun _ => 0))).2.2
          (fun _ _ _ _ _ => rfl) (fun _ _ => rfl) rfl).2.2.2.2.2⟩⟩

/-- C3, as the code has it: after a successful OpenLink from Closed with the
Verbose flag on, where the board-information query reports c channels and b
ADC bits, NumChannels and NumADCBits hold c and b converted to int (c and b
themselves when below 2^31), MinADCBit is 0 and MaxADCBit is NumADCBits - 1
computed in 32-bit int arithmetic, the index of the highest ADC bit: b - 1
for b below 2^31, NumADCBits - 1 unless NumADCBits is the least int, and the
greatest int 2147483647 when b is 0x80000000. -/
theorem OpenLink_topology {T : Type} (L : CAEN T) (w : World T) (c b : Nat)
    (hclosed : w.self.LinkEstablished = false)
    (hopen : (L.OpenDigitizer w.hw CAEN_DGTZ_ConnectionType.CAEN_DGTZ_USB 0 0
      w.self.BoardAddress).1 = L.CAEN_DGTZ_Success)
    (hverbose : w.self.Verbose = true)
    (hinfo : ∀ t h, (L.GetInfo t h).2.1 = { Channels := c, ADC_NBits := b }) :
    (OpenLink L w).1 = L.CAEN_DGTZ_Success ∧
    (OpenLink L w).2.self.LinkEstablished = true ∧
    (OpenLink L w).2.self.NumChannels = toInt32 c ∧
    (OpenLink L w).2.self.NumADCBits = toInt32 b ∧
    (OpenLink L w).2.self.MinADCBit = 0 ∧
    (OpenLink L w).2.self.MaxADCBit = wrapInt32 ((OpenLink L w).2.self.NumADCBits - 1) ∧
    (c < 2 ^ 31 → (OpenLink L w).2.self.NumChannels = (c : Int)) ∧
    (b < 2 ^ 31 → (OpenLink L w).2.self.NumADCBits = (b : Int) ∧
      (OpenLink L w).2.self.MaxADCBit = (b : Int) - 1) ∧
    (b % 2 ^ 32 ≠ 2 ^ 31 →
      (OpenLink L w).2.self.MaxADCBit = (OpenLink L w).2.self.NumADCBits - 1) ∧
    (b = 0x80000000 → (OpenLink L w).2.self.NumADCBits = -2147483648 ∧
      (OpenLink L w).2.self.MaxADCBit = 2147483647) := by
  have e : (OpenLink L w).1 = L.CAEN_DGTZ_Success ∧
      (OpenLink L w).2.self.LinkEstablished = true ∧
      (OpenLink L w).2.self.NumChannels = toInt32 c ∧
      (OpenLink L w).2.self.NumADCBits = toInt32 b ∧
      (OpenLink L w).2.self.MinADCBit = 0 ∧
      (OpenLink L w).2.self.MaxADCBit = wrapInt32 (toInt32 b - 1) := by
    simp [OpenLink, World.setStatus, World.called, hclosed, hopen, hverbose, hinfo]
  obtain ⟨e1, e2, e3, e4, e5, e6⟩ := e
  have hnowrap : b % 2 ^ 32 ≠ 2 ^ 31 → wrapInt32 (toInt32 b - 1) = toInt32 b - 1 := by
    intro hb
    have h1 := toInt32_gt_min b hb
    have h2 := (toInt32_range b).2
    exact wrapInt32_of_range _ (by omega) (by omega)
  refine ⟨e1, e2, e3, e4, e5, by rw [e6, e4], ?_, ?_, ?_, ?_⟩
  · intro hc
    rw [e3, toInt32_of_lt c hc]
  · intro hb
    have hb2 : b % 2 ^ 32 ≠ 2 ^ 31 := by omega
    rw [e4, e6, hnowrap hb2, toInt32_of_lt b hb]
    exact ⟨rfl, rfl⟩
  · intro hb
    rw [e6, e4, hnowrap hb]
  · intro hb
    rw [e4, e6, hb]
    exact ⟨by decide, by decide⟩

/-- Witness for C3 on the mock: a verbose object, a board of 8 channels and 12
bits; MaxADCBit ends as 11. -/
theorem OpenLink_topology_witness :
    (world0 (board0 true false) (fun _ => 0)).self.LinkEstablished = false ∧
    (world0 (board0 true false) (fun _ => 0)).self.Verbose = true ∧
    (OpenLink (mock (cfg0 0)) (world0 (board0 true false) (fun _ => 0))).2.self.NumChannels = 8 ∧
    (OpenLink (mock (cfg0 0)) (world0 (board0 true false) (fun _ => 0))).2.self.NumADCBits = 12 ∧
    (OpenLink (mock (cfg0 0)) (world0 (board0 true false) (fun _ => 0))).2.self.MaxADCBit = 11 :=
  ⟨rfl, rfl,
    (OpenLink_topology (mock (cfg0 0)) (world0 (board0 true false) (fun _ => 0)) 8 12
      rfl rfl rfl (fun _ _ => rfl)).2.2.2.2.2.2.1 (by decide),
    ((OpenLink_topology (mock (cfg0 0)) (world0 (board0 true false) (fun _ => 0)) 8 12
      rfl rfl rfl (fun _ _ => rfl)).2.2.2.2.2.2.2.1 (by decide)).1,
    ((OpenLink_topology (mock (cfg0 0)) (world0 (board0 true false) (fun _ => 0)) 8 12
      rfl rfl rfl (fun _ _ => rfl)).2.2.2.2.2.2.2.1 (by decide)).2⟩

/-- C3 fails as stated, at a board of 8 channels and 12 ADC bits on the mock.
With Verbose off a successful OpenLink from Closed leaves NumChannels,
NumADCBits and MaxADCBit at 0, not 8, 12 and 4095; with Verbose on it sets
MaxADCBit to 11, not to 2^12 - 1 = 4095. -/
theorem OpenLink_topology_counterexample :
    ((world0 (board0 false false) (fun _ => 0)).self.LinkEstablished = false ∧
      (OpenLink (mock (cfg0 0)) (world0 (board0 false false) (fun _ => 0))).1 =
        (mock (cfg0 0)).CAEN_DGTZ_Success ∧
      (OpenLink (mock (cfg0 0)) (world0 (board0 false false) (fun _ => 0))).2.self.LinkEstablished
        = true ∧
      (OpenLink (mock (cfg0 0)) (world0 (board0 false false) (fun _ => 0))).2.self.NumChannels
        ≠ 8 ∧
      (OpenLink (mock (cfg0 0)) (world0 (board0 false false) (fun _ => 0))).2.self.NumADCBits
        ≠ 12 ∧
      (OpenLink (mock (cfg0 0)) (world0 (board0 false false) (fun _ => 0))).2.self.MaxADCBit
        ≠ 2 ^ 12 - 1) ∧
    ((world0 (board0 true false) (fun _ => 0)).self.LinkEstablished = false ∧
      (OpenLink (mock (cfg0 0)) (world0 (board0 true false) (fun _ => 0))).1 =
        (mock (cfg0 0)).CAEN_DGTZ_Success ∧
      (OpenLink (mock (cfg0 0)) (world0 (board0 true false) (fun _ => 0))).2.self.LinkEstablished
        = true ∧
      (OpenLink (mock (cfg0 0)) (world0 (board0 true false) (fun _ => 0))).2.self.MaxADCBit
        = 11 ∧
      (OpenLink (mock (cfg0 0)) (world0 (board0 true false) (fun _ => 0))).2.self.MaxADCBit
        ≠ 2 ^ 12 - 1) := by
  refine ⟨⟨rfl, rfl, rfl, ?_, ?_, ?_⟩, ⟨rfl, rfl, rfl, ?_, ?_⟩⟩ <;>
    first
      | rfl
      | decide

/-! ## Triggering methods -/

/-- C4: on the mock register map, where mode requests do not touch the
front-panel I/O control register, for every prior 32-bit value v of that
register: EnableExternalTrigger("NIM") leaves it at v with bit 0 cleared,
that is 2 * (v / 2); EnableExternalTrigger("TTL") leaves it at v with bit 0
set, 2 * (v / 2) + 1; any other string leaves it at v; in every case bits
1..31 are those of v. -/
theorem EnableExternalTrigger_front_panel (cfg : MockConfig) (w : World (Nat → Nat))
    (v : Nat) (s : String) (hv : v < 2 ^ 32)
    (hreg : w.hw (mock cfg).CAEN_DGTZ_FRONT_PANEL_IO_CTRL_ADD = v)
    (hmode : ∀ regs, cfg.modeEffect regs (mock cfg).CAEN_DGTZ_FRONT_PANEL_IO_CTRL_ADD =
      regs (mock cfg).CAEN_DGTZ_FRONT_PANEL_IO_CTRL_ADD) :
    (s = "NIM" →
      (EnableExternalTrigger (mock cfg) w s).2.hw (mock cfg).CAEN_DGTZ_FRONT_PANEL_IO_CTRL_ADD
        = 2 * (v / 2)) ∧
    (s = "TTL" →
      (EnableExternalTrigger (mock cfg) w s).2.hw (mock cfg).CAEN_DGTZ_FRONT_PANEL_IO_CTRL_ADD
        = 2 * (v / 2) + 1) ∧
    (s ≠ "NIM" → s ≠ "TTL" →
      (EnableExternalTrigger (mock cfg) w s).2.hw (mock cfg).CAEN_DGTZ_FRONT_PANEL_IO_CTRL_ADD
        = v) ∧
    (EnableExternalTrigger (mock cfg) w s).2.hw (mock cfg).CAEN_DGTZ_FRONT_PANEL_IO_CTRL_ADD / 2
      = v / 2 ∧
    (∀ i, 1 ≤ i →
      ((EnableExternalTrigger (mock cfg) w s).2.hw
        (mock cfg).CAEN_DGTZ_FRONT_PANEL_IO_CTRL_ADD).testBit i = v.testBit i) := by
  have key := EnableExternalTrigger_mock_reg cfg w s hmode
  rw [hreg, toUInt32_neg_two] at key
  have hdiv : (EnableExternalTrigger (mock cfg) w s).2.hw
      (mock cfg).CAEN_DGTZ_FRONT_PANEL_IO_CTRL_ADD / 2 = v / 2 := by
    rw [key]
    by_cases h1 : s = "NIM"
    · rw [if_pos h1, and_mask_eq v hv]; omega
    · rw [if_neg h1]
      by_cases h2 : s = "TTL"
      · rw [if_pos h2, or_one_eq]; omega
      · rw [if_neg h2]
  refine ⟨?_, ?_, ?_, hdiv, ?_⟩
  · intro h
    rw [key, if_pos h, and_mask_eq v hv]
  · intro h
    have hn : s ≠ "NIM" := by rw [h]; decide
    rw [key, if_neg hn, if_pos h, or_one_eq]
  · intro h1 h2
    rw [key, if_neg h1, if_neg h2]
  · intro i hi
    obtain ⟨j, rfl⟩ : ∃ j, i = j + 1 := ⟨i - 1, by omega⟩
    rw [Nat.testBit_succ, Nat.testBit_succ, hdiv]

/-- Witness for C4 on the mock with the register at 0x83: NIM gives 0x82, TTL
gives 0x83, XYZ gives 0x83. -/
theorem EnableExternalTrigger_front_panel_witness :
    (world0 (board0 false true) (fun _ => 0x83)).hw
      (mock (cfg0 0)).CAEN_DGTZ_FRONT_PANEL_IO_CTRL_ADD = 0x83 ∧
    (EnableExternalTrigger (mock (cfg0 0)) (world0 (board0 false true) (fun _ => 0x83))
      "NIM").2.hw (mock (cfg0 0)).CAEN_DGTZ_FRONT_PANEL_IO_CTRL_ADD = 0x82 ∧
    (EnableExternalTrigger (mock (cfg0 0)) (world0 (board0 false true) (fun _ => 0x83))
      "TTL").2.hw (mock (cfg0 0)).CAEN_DGTZ_FRONT_PANEL_IO_CTRL_ADD = 0x83 ∧
    (EnableExternalTrigger (mock (cfg0 0)) (world0 (board0 false true) (fun _ => 0x83))
      "XYZ").2.hw (mock (cfg0 0)).CAEN_DGTZ_FRONT_PANEL_IO_CTRL_ADD = 0x83 :=
  ⟨rfl,
    (EnableExternalTrigger_front_panel (cfg0 0) (world0 (board0 false true) (fun _ => 0x83))
      0x83 "NIM" (by decide) rfl (fun _ => rfl)).1 rfl,
    (EnableExternalTrigger_front_panel (cfg0 0) (world0 (board0 false true) (fun _ => 0x83))
      0x83 "TTL" (by decide) rfl (fun _ => rfl)).2.1 rfl,
    (EnableExternalTrigger_front_panel (cfg0 0) (world0 (board0 false true) (fun _ => 0x83))
      0x83 "XYZ" (by decide) rfl (fun _ => rfl)).2.2.1 (by decide) (by decide)⟩

/-- For every string, recognised or not, EnableExternalTrigger makes the same
three calls: the mode request, a read of the front-panel register and a write
to it. -/
theorem EnableExternalTrigger_calls {T : Type} (L : CAEN T) (w : World T) (s : String) :
    ∃ v, (EnableExternalTrigger L w s).2.trace = w.trace ++
      [Call.SetExtTriggerInputMode w.self.BoardHandle
          CAEN_DGTZ_TriggerMode_t.CAEN_DGTZ_TRGMODE_ACQ_AND_EXTOUT,
        Call.ReadRegister w.self.BoardHandle L.CAEN_DGTZ_FRONT_PANEL_IO_CTRL_ADD,
        Call.WriteRegister w.self.BoardHandle L.CAEN_DGTZ_FRONT_PANEL_IO_CTRL_ADD v] := by
  simp only [EnableExternalTrigger, SetExtTriggerInputMode, GetRegisterValue, SetRegisterValue,
    CAEN_DGTZ_ReadRegister, CAEN_DGTZ_WriteRegister, World.setStatus, World.called,
    List.append_assoc, List.singleton_append]
  exact ⟨_, rfl⟩

/-- C5 at the input "XYZ": on the mock with the front-panel register at 0x83,
EnableExternalTrigger("XYZ") requests the external-trigger input mode
acquire-and-propagate, reads the front-panel register and writes 0x83 back to
it, and returns the status of that write, success. -/
theorem EnableExternalTrigger_unsupported_still_writes :
    (EnableExternalTrigger (mock (cfg0 0)) (world0 (board0 false true) (fun _ => 0x83))
      "XYZ").2.trace =
      [Call.SetExtTriggerInputMode 0 CAEN_DGTZ_TriggerMode_t.CAEN_DGTZ_TRGMODE_ACQ_AND_EXTOUT,
        Call.ReadRegister 0 0x811C, Call.WriteRegister 0 0x811C 0x83] ∧
    (EnableExternalTrigger (mock (cfg0 0)) (world0 (board0 false true) (fun _ => 0x83))
      "XYZ").1 = (mock (cfg0 0)).CAEN_DGTZ_Success := by
  constructor
  · simp [EnableExternalTrigger, SetExtTriggerInputMode, GetRegisterValue, SetRegisterValue,
      CAEN_DGTZ_ReadRegister, CAEN_DGTZ_WriteRegister, World.setStatus, World.called, mock,
      cfg0, world0, board0]
  · rfl

/-- C6: on the mock register map, for every prior value v of register 0x810C
and every level in 0..15, SetTriggerCoincidence(true, level) leaves the
register at v OR (level << 24): its bits 0..23 are those of v, every bit set
in v is still set, and level 5 on 0x00000080 gives 0x05000080. -/
theorem SetTriggerCoincidence_merge (cfg : MockConfig) (w : World (Nat → Nat))
    (v level : Nat) (hl : level ≤ 15) (hreg : w.hw 0x810C = v) :
    (SetTriggerCoincidence (mock cfg) w true level).2.hw 0x810C = v ||| (level <<< 24) ∧
    (SetTriggerCoincidence (mock cfg) w true level).2.hw 0x810C % 2 ^ 24 = v % 2 ^ 24 ∧
    (∀ i, i < 24 →
      ((SetTriggerCoincidence (mock cfg) w true level).2.hw 0x810C).testBit i = v.testBit i) ∧
    (∀ i, v.testBit i = true →
      ((SetTriggerCoincidence (mock cfg) w true level).2.hw 0x810C).testBit i = true) ∧
    (v = 0x00000080 → level = 5 →
      (SetTriggerCoincidence (mock cfg) w true level).2.hw 0x810C = 0x05000080) := by
  have key : (SetTriggerCoincidence (mock cfg) w true level).2.hw 0x810C
      = v ||| (level <<< 24) := by
    rw [SetTriggerCoincidence_mock_reg, hreg, toUInt32_shift level hl]
  refine ⟨key, ?_, ?_, ?_, ?_⟩
  · rw [key, or_mod_two_pow_eq, Nat.shiftLeft_eq, Nat.mul_mod_left, Nat.or_zero]
  · intro i hi
    rw [key, Nat.testBit_or, Nat.testBit_shiftLeft]
    have : decide (i ≥ 24) = false := by simp; omega
    rw [this, Bool.false_and, Bool.or_false]
  · intro i hi
    rw [key, Nat.testBit_or, hi, Bool.true_or]
  · intro h1 h2
    rw [key, h1, h2]
    decide

/-- Witness for C6 on the mock: level 5 on 0x00000080 gives 0x05000080. -/
theorem SetTriggerCoincidence_merge_witness :
    (5 : Nat) ≤ 15 ∧
    (world0 (board0 false true) (fun _ => 0x00000080)).hw 0x810C = 0x00000080 ∧
    (SetTriggerCoincidence (mock (cfg0 0)) (world0 (board0 false true) (fun _ => 0x00000080))
      true (5 : Nat)).2.hw 0x810C = 0x05000080 :=
  ⟨by decide, rfl,
    (SetTriggerCoincidence_merge (cfg0 0) (world0 (board0 false true) (fun _ => 0x00000080))
      0x00000080 5 (by decide) rfl).2.2.2.2 rfl rfl⟩

/-- C7, as the code has it: on the mock register map, for every prior value v
of register 0x810C and every level in 0..15, after
SetTriggerCoincidence(true, level) bits 24..27 of the register, read as a
4-bit number, are the bitwise OR of bits 24..27 of v with level; they equal
level when bits 24..27 of v are zero. -/
theorem SetTriggerCoincidence_level_bits (cfg : MockConfig) (w : World (Nat → Nat))
    (v level : Nat) (hl : level ≤ 15) (hreg : w.hw 0x810C = v) :
    (SetTriggerCoincidence (mock cfg) w true level).2.hw 0x810C / 2 ^ 24 % 16 =
      (v / 2 ^ 24 % 16) ||| level ∧
    (v / 2 ^ 24 % 16 = 0 →
      (SetTriggerCoincidence (mock cfg) w true level).2.hw 0x810C / 2 ^ 24 % 16 = level) := by
  have key : (SetTriggerCoincidence (mock cfg) w true level).2.hw 0x810C / 2 ^ 24 % 16 =
      (v / 2 ^ 24 % 16) ||| level := by
    rw [SetTriggerCoincidence_mock_reg, hreg, toUInt32_shift level hl, or_div_two_pow_eq,
      Nat.shiftLeft_eq, Nat.mul_div_cancel _ (by norm_num : 0 < 2 ^ 24)]
    have h16 : (16 : Nat) = 2 ^ 4 := by norm_num
    rw [h16, or_mod_two_pow_eq, Nat.mod_eq_of_lt (by omega : level < 2 ^ 4)]
  refine ⟨key, ?_⟩
  intro h0
  rw [key, h0, Nat.zero_or]

/-- Witness for C7 on the mock: level 5 on 0x00000080, whose bits 24..27 are
zero, leaves 5 in bits 24..27. -/
theorem SetTriggerCoincidence_level_bits_witness :
    (5 : Nat) ≤ 15 ∧
    (world0 (board0 false true) (fun _ => 0x00000080)).hw 0x810C = 0x00000080 ∧
    (SetTriggerCoincidence (mock (cfg0 0)) (world0 (board0 false true) (fun _ => 0x00000080))
      true (5 : Nat)).2.hw 0x810C / 2 ^ 24 % 16 = 5 :=
  ⟨by decide, rfl,
    (SetTriggerCoincidence_level_bits (cfg0 0)
      (world0 (board0 false true) (fun _ => 0x00000080))
      0x00000080 5 (by decide) rfl).2 (by decide)⟩

/-- C7 fails as stated: on the mock with register 0x810C at 0x0F000000,
SetTriggerCoincidence(true, 5) leaves the register at 0x0F000000, whose bits
24..27 read 15, not 5. -/
theorem SetTriggerCoincidence_level_bits_counterexample :
    (SetTriggerCoincidence (mock (cfg0 0)) (world0 (board0 false true) (fun _ => 0x0F000000))
      true 5).2.hw 0x810C = 0x0F000000 ∧
    (SetTriggerCoincidence (mock (cfg0 0)) (world0 (board0 false true) (fun _ => 0x0F000000))
      true 5).2.hw 0x810C / 2 ^ 24 % 16 = 15 ∧
    (SetTriggerCoincidence (mock (cfg0 0)) (world0 (board0 false true) (fun _ => 0x0F000000))
      true 5).2.hw 0x810C / 2 ^ 24 % 16 ≠ 5 := by
  have key : (SetTriggerCoincidence (mock (cfg0 0))
      (world0 (board0 false true) (fun _ => 0x0F000000)) true 5).2.hw 0x810C = 0x0F000000 := by
    rw [SetTriggerCoincidence_mock_reg]
    decide
  rw [key]
  decide

/-- C8: for every level and every state, SetTriggerCoincidence(false, level)
returns the sentinel -42, makes no call to the vendor library (no read, no
write), leaves the hardware state unchanged, and changes no member but
CommandStatus. -/
theorem SetTriggerCoincidence_disabled {T : Type} (L : CAEN T) (w : World T) (Level : Int) :
    (SetTriggerCoincidence L w false Level).1 = -42 ∧
    (SetTriggerCoincidence L w false Level).2.trace = w.trace ∧
    (SetTriggerCoincidence L w false Level).2.hw = w.hw ∧
    (SetTriggerCoincidence L w false Level).2.self = { w.self with CommandStatus := -42 } := by
  simp [SetTriggerCoincidence, World.setStatus]

/-! ## Readout methods -/

theorem mask_bit_eq_zero_iff (M i : Nat) :
    M &&& (1 <<< (i % 32)) = 0 ↔ M.testBit (i % 32) = false := by
  rw [Nat.one_shiftLeft, Nat.and_two_pow]
  cases M.testBit (i % 32) <;> simp

theorem bit0_test (d : Nat) : decide (d &&& (1 <<< 0) ≠ 0) = d.testBit 0 := by
  have h1 : (1 <<< 0 : Nat) = 1 := rfl
  rw [h1, Nat.and_one_is_mod, Nat.testBit_zero]
  have h2 : d % 2 = 0 ∨ d % 2 = 1 := by omega
  rcases h2 with h2 | h2 <;> simp [h2]

/-- The loop leaves alone every entry outside the range it runs over and every
entry whose mask bit is clear, when the mask query always delivers M. -/
theorem CheckBufferStatus.loop_frame {T : Type} (L : CAEN T) (Start Offset M : Nat)
    (hmask : ∀ t h, (L.GetChannelEnableMask t h).2.1 = some M) :
    ∀ (n ch : Nat) (w : World T) (buf : Nat → Bool) (i : Nat),
      (i < ch ∨ ch + n ≤ i ∨ M &&& (1 <<< (i % 32)) = 0) →
      (CheckBufferStatus.loop L Start Offset n ch w buf).2 i = buf i := by
  intro n
  induction n with
  | zero => intro ch w buf i _; rfl
  | succ n ih =>
    intro ch w buf i hi
    simp only [CheckBufferStatus.loop, GetChannelEnableMask, hmask, Option.getD_some]
    split
    · apply ih
      omega
    · rename_i hne
      rw [ih _ _ _ _ (by omega)]
      have hic : i ≠ ch := by
        rintro rfl
        rcases hi with h | h | h
        · omega
        · omega
        · exact hne h
      exact Function.update_noteq hic _ _

/-- The loop stores, in the entry of every channel of its range whose mask bit
is set, bit 0 of what a read of that channel's status register left in Data32;
the read is made in a hardware state satisfying any property Inv that holds
at the start and that mask queries and register reads preserve. -/
theorem CheckBufferStatus.loop_value {T : Type} (L : CAEN T) (Start Offset M : Nat)
    (Inv : T → Prop)
    (hmask : ∀ t h, (L.GetChannelEnableMask t h).2.1 = some M)
    (hIm : ∀ t h, Inv t → Inv (L.GetChannelEnableMask t h).2.2)
    (hIr : ∀ t h a, Inv t → Inv (L.ReadRegister t h a).2.2) :
    ∀ (n ch : Nat) (w : World T) (buf : Nat → Bool) (i : Nat),
      Inv w.hw → ch ≤ i → i < ch + n → M &&& (1 <<< (i % 32)) ≠ 0 →
      ∃ t h, Inv t ∧ (CheckBufferStatus.loop L Start Offset n ch w buf).2 i =
        (((L.ReadRegister t h ((Start + Offset * i) % 2 ^ 32)).2.1.getD M).testBit 0) := by
  intro n
  induction n with
  | zero => intro ch w buf i _ h1 h2; omega
  | succ n ih =>
    intro ch w buf i hinv h1 h2 h3
    simp only [CheckBufferStatus.loop, GetChannelEnableMask, hmask, Option.getD_some]
    by_cases hic : i = ch
    · subst hic
      rw [if_neg h3]
      rw [CheckBufferStatus.loop_frame L Start Offset M hmask _ _ _ _ _ (Or.inl (by omega))]
      rw [Function.update_same, bit0_test]
      exact ⟨_, _, hIm _ w.self.BoardHandle hinv, rfl⟩
    · split
      · apply ih
        · exact hIm _ _ hinv
        · omega
        · omega
        · exact h3
      · apply ih
        · exact hIr _ _ _ (hIm _ _ hinv)
        · omega
        · omega
        · exact h3

/-- C9: on the mock register map with NumChannels = N at most 32 and enabled
mask M, where F is a set of enabled channels (below N, mask bit set) and the
status register of channel c, at address base + c * 0x100, has bit 0 set
exactly when c is in F: CheckBufferStatus stores true in the entry of every
channel in F and false in the entry of every enabled channel below N outside
F.  Nothing is assumed of the other bits of the status registers. -/
theorem CheckBufferStatus_reports (cfg : MockConfig) (w : World (Nat → Nat))
    (buf : Nat → Bool) (N M : Nat) (F : Finset Nat)
    (hN : w.self.NumChannels = (N : Int)) (hN32 : N ≤ 32) (hM : cfg.mask = M)
    (hF : ∀ c ∈ F, c < N ∧ M.testBit c = true)
    (hwire : ∀ c, c < N →
      ((w.hw ((mock cfg).CAEN_DGTZ_CHANNEL_STATUS_BASE_ADDRESS + c * 0x100)).testBit 0 = true
        ↔ c ∈ F)) :
    (∀ c ∈ F, (CheckBufferStatus (mock cfg) w buf).2.2 c = true) ∧
    (∀ c, c < N → M.testBit c = true → c ∉ F →
      (CheckBufferStatus (mock cfg) w buf).2.2 c = false) := by
  have hmask : ∀ (t : Nat → Nat) (h : Int),
      ((mock cfg).GetChannelEnableMask t h).2.1 = some M := by
    intro t h
    rw [← hM]
    rfl
  have hval : ∀ c, c < N → M.testBit c = true →
      (CheckBufferStatus (mock cfg) w buf).2.2 c =
        (w.hw ((mock cfg).CAEN_DGTZ_CHANNEL_STATUS_BASE_ADDRESS + c * 0x100)).testBit 0 := by
    intro c hc hbit
    have hen : M &&& (1 <<< (c % 32)) ≠ 0 := by
      intro h0
      rw [mask_bit_eq_zero_iff M c, Nat.mod_eq_of_lt (by omega : c < 32)] at h0
      rw [h0] at hbit
      exact Bool.false_ne_true hbit
    obtain ⟨t, h, ht, hv⟩ := CheckBufferStatus.loop_value (mock cfg)
      (mock cfg).CAEN_DGTZ_CHANNEL_STATUS_BASE_ADDRESS 0x0100 M (fun t => t = w.hw) hmask
      (fun _ _ ht => ht) (fun _ _ _ ht => ht) N 0 (w.setStatus (-42)) buf c rfl
      (Nat.zero_le _) (by omega) hen
    have hn : (w.setStatus (-42)).self.NumChannels.toNat = N := by
      simp [World.setStatus, hN]
    have haddr : ((mock cfg).CAEN_DGTZ_CHANNEL_STATUS_BASE_ADDRESS + 0x0100 * c) % 2 ^ 32 =
        (mock cfg).CAEN_DGTZ_CHANNEL_STATUS_BASE_ADDRESS + c * 0x100 := by
      have : (mock cfg).CAEN_DGTZ_CHANNEL_STATUS_BASE_ADDRESS = 0x1088 := rfl
      rw [this]
      omega
    simp only [CheckBufferStatus, hn]
    rw [hv, haddr, ht]
    rfl
  constructor
  · intro c hc
    rw [hval c (hF c hc).1 (hF c hc).2]
    exact (hwire c (hF c hc).1).2 hc
  · intro c hc hbit hnF
    rw [hval c hc hbit]
    cases hb : (w.hw ((mock cfg).CAEN_DGTZ_CHANNEL_STATUS_BASE_ADDRESS + c * 0x100)).testBit 0
    · rfl
    · exact absurd ((hwire c hc).1 hb) hnF

/-- Witness for C9 on the mock: four channels, mask 0b0101, F = {0}; the status
register of channel 0 reads 3 and that of channel 2 reads 2.  Entry 0 becomes
true and entry 2 becomes false. -/
theorem CheckBufferStatus_reports_witness :
    (world0 board4 regs0).self.NumChannels = ((4 : Nat) : Int) ∧ (4 : Nat) ≤ 32 ∧
    (∀ c ∈ ({0} : Finset Nat), c < 4 ∧ (5 : Nat).testBit c = true) ∧
    (∀ c, c < 4 →
      (((world0 board4 regs0).hw
        ((mock (cfg0 5)).CAEN_DGTZ_CHANNEL_STATUS_BASE_ADDRESS + c * 0x100)).testBit 0 = true
        ↔ c ∈ ({0} : Finset Nat))) ∧
    (CheckBufferStatus (mock (cfg0 5)) (world0 board4 regs0) (fun _ => false)).2.2 0 = true ∧
    (CheckBufferStatus (mock (cfg0 5)) (world0 board4 regs0) (fun _ => true)).2.2 2 = false :=
  have hF : ∀ c ∈ ({0} : Finset Nat), c < 4 ∧ (5 : Nat).testBit c = true := by decide
  have hwire : ∀ c, c < 4 →
      (((world0 board4 regs0).hw
        ((mock (cfg0 5)).CAEN_DGTZ_CHANNEL_STATUS_BASE_ADDRESS + c * 0x100)).testBit 0 = true
        ↔ c ∈ ({0} : Finset Nat)) := by
    intro c hc
    interval_cases c <;> decide
  ⟨rfl, by decide, hF, hwire,
    (CheckBufferStatus_reports (cfg0 5) (world0 board4 regs0) (fun _ => false) 4 5 {0}
      rfl (by decide) rfl hF hwire).1 0 (by decide),
    (CheckBufferStatus_reports (cfg0 5) (world0 board4 regs0) (fun _ => true) 4 5 {0}
      rfl (by decide) rfl hF hwire).2 2 (by decide) (by decide) (by decide)⟩

/-- C12: SetTriggerEdge validates its edge string.  For every channel ch,
"Rising" and "Falling" each make exactly one call, the polarity request for
channel ch with the rising, respectively falling, polarity, and return its
status; the two polarities are distinct values of the vendor's enumeration.
For every other string the call returns the sentinel -42, makes no call to
the vendor library and leaves the hardware state unchanged. -/
theorem SetTriggerEdge_validates {T : Type} (L : CAEN T) (w : World T) (ch : Int)
    (s : String) :
    ((SetTriggerEdge L w ch "Rising").2.trace = w.trace ++
        [Call.SetTriggerPolarity w.self.BoardHandle ch
          CAEN_DGTZ_TriggerPolarity_t.CAEN_DGTZ_TriggerOnRisingEdge] ∧
      (SetTriggerEdge L w ch "Rising").1 = (L.SetTriggerPolarity w.hw w.self.BoardHandle ch
        CAEN_DGTZ_TriggerPolarity_t.CAEN_DGTZ_TriggerOnRisingEdge).1) ∧
    ((SetTriggerEdge L w ch "Falling").2.trace = w.trace ++
        [Call.SetTriggerPolarity w.self.BoardHandle ch
          CAEN_DGTZ_TriggerPolarity_t.CAEN_DGTZ_TriggerOnFallingEdge] ∧
      (SetTriggerEdge L w ch "Falling").1 = (L.SetTriggerPolarity w.hw w.self.BoardHandle ch
        CAEN_DGTZ_TriggerPolarity_t.CAEN_DGTZ_TriggerOnFallingEdge).1) ∧
    CAEN_DGTZ_TriggerPolarity_t.CAEN_DGTZ_TriggerOnRisingEdge ≠
      CAEN_DGTZ_TriggerPolarity_t.CAEN_DGTZ_TriggerOnFallingEdge ∧
    (s ≠ "Rising" → s ≠ "Falling" →
      (SetTriggerEdge L w ch s).1 = -42 ∧ (SetTriggerEdge L w ch s).2.trace = w.trace ∧
      (SetTriggerEdge L w ch s).2.hw = w.hw) := by
  refine ⟨⟨?_, ?_⟩, ⟨?_, ?_⟩, by decide, ?_⟩
  · simp [SetTriggerEdge, SetTriggerPolarity, World.setStatus, World.called]
  · simp [SetTriggerEdge, SetTriggerPolarity, World.setStatus, World.called]
  · simp [SetTriggerEdge, SetTriggerPolarity, World.setStatus, World.called]
  · simp [SetTriggerEdge, SetTriggerPolarity, World.setStatus, World.called]
  · intro h1 h2
    simp [SetTriggerEdge, World.setStatus, h1, h2]

/-- Witness for C12 on the mock: the string "rising" is not accepted. -/
theorem SetTriggerEdge_validates_witness :
    ("rising" ≠ "Rising" ∧ "rising" ≠ "Falling") ∧
    (SetTriggerEdge (mock (cfg0 0)) (world0 board4 regs0) 3 "rising").1 = -42 ∧
    (SetTriggerEdge (mock (cfg0 0)) (world0 board4 regs0) 3 "rising").2.trace = [] :=
  ⟨⟨by decide, by decide⟩,
    ((SetTriggerEdge_validates (mock (cfg0 0)) (world0 board4 regs0) 3 "rising").2.2.2
      (by decide) (by decide)).1,
    ((SetTriggerEdge_validates (mock (cfg0 0)) (world0 board4 regs0) 3 "rising").2.2.2
      (by decide) (by decide)).2.1⟩

/-- C13: SetAcquisitionMode accepts exactly "Software" and "SIn", SetZSMode
exactly "None" and "ZLE".  Each accepted string makes exactly one call, the
mode request with the corresponding mode, and returns its status; every other
string, such as "software" or "zle", returns the sentinel -42, makes no call
to the vendor library and leaves the hardware state unchanged. -/
theorem mode_setters_validate {T : Type} (L : CAEN T) (w : World T) (s : String) :
    ((SetAcquisitionMode L w "Software").2.trace = w.trace ++
        [Call.SetAcquisitionMode w.self.BoardHandle CAEN_DGTZ_AcqMode_t.CAEN_DGTZ_SW_CONTROLLED] ∧
      (SetAcquisitionMode L w "Software").1 = (L.SetAcquisitionMode w.hw w.self.BoardHandle
        CAEN_DGTZ_AcqMode_t.CAEN_DGTZ_SW_CONTROLLED).1) ∧
    ((SetAcquisitionMode L w "SIn").2.trace = w.trace ++
        [Call.SetAcquisitionMode w.self.BoardHandle
          CAEN_DGTZ_AcqMode_t.CAEN_DGTZ_S_IN_CONTROLLED] ∧
      (SetAcquisitionMode L w "SIn").1 = (L.SetAcquisitionMode w.hw w.self.BoardHandle
        CAEN_DGTZ_AcqMode_t.CAEN_DGTZ_S_IN_CONTROLLED).1) ∧
    ((SetZSMode L w "None").2.trace = w.trace ++
        [Call.SetZeroSuppressionMode w.self.BoardHandle CAEN_DGTZ_ZS_Mode_t.CAEN_DGTZ_ZS_NO] ∧
      (SetZSMode L w "None").1 = (L.SetZeroSuppressionMode w.hw w.self.BoardHandle
        CAEN_DGTZ_ZS_Mode_t.CAEN_DGTZ_ZS_NO).1) ∧
    ((SetZSMode L w "ZLE").2.trace = w.trace ++
        [Call.SetZeroSuppressionMode w.self.BoardHandle CAEN_DGTZ_ZS_Mode_t.CAEN_DGTZ_ZS_ZLE] ∧
      (SetZSMode L w "ZLE").1 = (L.SetZeroSuppressionMode w.hw w.self.BoardHandle
        CAEN_DGTZ_ZS_Mode_t.CAEN_DGTZ_ZS_ZLE).1) ∧
    (s ≠ "Software" → s ≠ "SIn" →
      (SetAcquisitionMode L w s).1 = -42 ∧ (SetAcquisitionMode L w s).2.trace = w.trace ∧
      (SetAcquisitionMode L w s).2.hw = w.hw) ∧
    (s ≠ "None" → s ≠ "ZLE" →
      (SetZSMode L w s).1 = -42 ∧ (SetZSMode L w s).2.trace = w.trace ∧
      (SetZSMode L w s).2.hw = w.hw) ∧
    ((SetAcquisitionMode L w "software").1 = -42 ∧
      (SetAcquisitionMode L w "software").2.trace = w.trace) ∧
    ((SetZSMode L w "zle").1 = -42 ∧ (SetZSMode L w "zle").2.trace = w.trace) := by
  refine ⟨⟨?_, ?_⟩, ⟨?_, ?_⟩, ⟨?_, ?_⟩, ⟨?_, ?_⟩, ?_, ?_, ⟨?_, ?_⟩, ⟨?_, ?_⟩⟩
  · simp [SetAcquisitionMode, SetAcquisitionMode_enum, World.setStatus, World.called]
  · simp [SetAcquisitionMode, SetAcquisitionMode_enum, World.setStatus, World.called]
  · simp [SetAcquisitionMode, SetAcquisitionMode_enum, World.setStatus, World.called]
  · simp [SetAcquisitionMode, SetAcquisitionMode_enum, World.setStatus, World.called]
  · simp [SetZSMode, SetZeroSuppressionMode, World.setStatus, World.called]
  · simp [SetZSMode, SetZeroSuppressionMode, World.setStatus, World.called]
  · simp [SetZSMode, SetZeroSuppressionMode, World.setStatus, World.called]
  · simp [SetZSMode, SetZeroSuppressionMode, World.setStatus, World.called]
  · intro h1 h2
    simp [SetAcquisitionMode, World.setStatus, h1, h2]
  · intro h1 h2
    simp [SetZSMode, World.setStatus, h1, h2]
  · simp [SetAcquisitionMode, World.setStatus]
  · simp [SetAcquisitionMode, World.setStatus]
  · simp [SetZSMode, World.setStatus]
  · simp [SetZSMode, World.setStatus]

/-- Witness for C13 on the mock: "SOFTWARE" and "Zle" are not accepted. -/
theorem mode_setters_validate_witness :
    ("SOFTWARE" ≠ "Software" ∧ "SOFTWARE" ≠ "SIn") ∧
    (SetAcquisitionMode (mock (cfg0 0)) (world0 board4 regs0) "SOFTWARE").1 = -42 ∧
    (SetAcquisitionMode (mock (cfg0 0)) (world0 board4 regs0) "SOFTWARE").2.trace = [] ∧
    ("Zle" ≠ "None" ∧ "Zle" ≠ "ZLE") ∧
    (SetZSMode (mock (cfg0 0)) (world0 board4 regs0) "Zle").1 = -42 ∧
    (SetZSMode (mock (cfg0 0)) (world0 board4 regs0) "Zle").2.trace = [] :=
  ⟨⟨by decide, by decide⟩,
    ((mode_setters_validate (mock (cfg0 0)) (world0 board4 regs0) "SOFTWARE").2.2.2.2.1
      (by decide) (by decide)).1,
    ((mode_setters_validate (mock (cfg0 0)) (world0 board4 regs0) "SOFTWARE").2.2.2.2.1
      (by decide) (by decide)).2.1,
    ⟨by decide, by decide⟩,
    ((mode_setters_validate (mock (cfg0 0)) (world0 board4 regs0) "Zle").2.2.2.2.2.1
      (by decide) (by decide)).1,
    ((mode_setters_validate (mock (cfg0 0)) (world0 board4 regs0) "Zle").2.2.2.2.2.1
      (by decide) (by decide)).2.1⟩

/-! ## Register access and initialisation -/

/-- C14: the register round trip.  SetRegisterValue(a, v) makes exactly one
call, the write of v at a, and both returns and records in CommandStatus the
status of that write.  On the mock register map, for every address a and
value v, GetRegisterValue(a) after SetRegisterValue(a, v) returns success
and delivers v, and GetRegisterValue leaves the register map as it was. -/
theorem register_round_trip {T : Type} (L : CAEN T) (w : World T) (cfg : MockConfig)
    (m : World (Nat → Nat)) (a v d : Nat) :
    ((SetRegisterValue L w a v).2.trace = w.trace ++
        [Call.WriteRegister w.self.BoardHandle a v] ∧
      (SetRegisterValue L w a v).1 = (L.WriteRegister w.hw w.self.BoardHandle a v).1 ∧
      (SetRegisterValue L w a v).2.self.CommandStatus =
        (L.WriteRegister w.hw w.self.BoardHandle a v).1) ∧
    ((GetRegisterValue (mock cfg) (SetRegisterValue (mock cfg) m a v).2 a d).1 =
        (mock cfg).CAEN_DGTZ_Success ∧
      (GetRegisterValue (mock cfg) (SetRegisterValue (mock cfg) m a v).2 a d).2.1 = v) ∧
    (GetRegisterValue (mock cfg) m a d).2.2.hw = m.hw := by
  refine ⟨⟨?_, ?_, ?_⟩, ⟨?_, ?_⟩, ?_⟩
  · simp [SetRegisterValue, CAEN_DGTZ_WriteRegister, World.setStatus, World.called]
  · simp [SetRegisterValue, CAEN_DGTZ_WriteRegister, World.setStatus, World.called]
  · simp [SetRegisterValue, CAEN_DGTZ_WriteRegister, World.setStatus, World.called]
  · simp [GetRegisterValue, SetRegisterValue, CAEN_DGTZ_ReadRegister, CAEN_DGTZ_WriteRegister,
      World.setStatus, World.called, mock]
  · simp [GetRegisterValue, SetRegisterValue, CAEN_DGTZ_ReadRegister, CAEN_DGTZ_WriteRegister,
      World.setStatus, World.called, mock]
  · simp [GetRegisterValue, CAEN_DGTZ_ReadRegister, World.setStatus, World.called, mock]

/-- C15: whatever the transport answers and whatever the link state,
Initialize makes exactly six calls, all register writes, in this order:
software reset <- 0, VME control <- 0x10, front-panel I/O control <- 0,
trigger source enable <- 0xC0000080 (bits 31, 30 and 7), front-panel trigger
out enable <- 0, broadcast channel control <- 0x50.  None of its calls is a
register read, and no member of the object changes, CommandStatus included. -/
theorem Initialize_writes {T : Type} (L : CAEN T) (w : World T) :
    (Initialize L w).trace = w.trace ++
      [Call.WriteRegister w.self.BoardHandle L.CAEN_DGTZ_SW_RESET_ADD 0x00000000,
        Call.WriteRegister w.self.BoardHandle L.CAEN_DGTZ_VME_CONTROL_ADD 0x00000010,
        Call.WriteRegister w.self.BoardHandle L.CAEN_DGTZ_FRONT_PANEL_IO_CTRL_ADD 0x00000000,
        Call.WriteRegister w.self.BoardHandle L.CAEN_DGTZ_TRIGGER_SRC_ENABLE_ADD 0xC0000080,
        Call.WriteRegister w.self.BoardHandle L.CAEN_DGTZ_FP_TRIGGER_OUT_ENABLE_ADD 0x00000000,
        Call.WriteRegister w.self.BoardHandle L.CAEN_DGTZ_BROAD_CH_CTRL_ADD 0x00000050] ∧
    (0xC0000080 : Nat) = 2 ^ 31 + 2 ^ 30 + 2 ^ 7 ∧
    (∀ h a, Call.ReadRegister h a ∉ (Initialize L w).trace.drop w.trace.length) ∧
    (Initialize L w).self = w.self ∧
    (Initialize L w).self.CommandStatus = w.self.CommandStatus := by
  have htr : (Initialize L w).trace = w.trace ++
      [Call.WriteRegister w.self.BoardHandle L.CAEN_DGTZ_SW_RESET_ADD 0x00000000,
        Call.WriteRegister w.self.BoardHandle L.CAEN_DGTZ_VME_CONTROL_ADD 0x00000010,
        Call.WriteRegister w.self.BoardHandle L.CAEN_DGTZ_FRONT_PANEL_IO_CTRL_ADD 0x00000000,
        Call.WriteRegister w.self.BoardHandle L.CAEN_DGTZ_TRIGGER_SRC_ENABLE_ADD 0xC0000080,
        Call.WriteRegister w.self.BoardHandle L.CAEN_DGTZ_FP_TRIGGER_OUT_ENABLE_ADD 0x00000000,
        Call.WriteRegister w.self.BoardHandle L.CAEN_DGTZ_BROAD_CH_CTRL_ADD 0x00000050] := by
    simp [Initialize, CAEN_DGTZ_WriteRegister, World.called]
  refine ⟨htr, by norm_num, ?_, rfl, rfl⟩
  intro h a hmem
  rw [htr, List.drop_left] at hmem
  simp at hmem

/-! ## Behaviour before the topology is known -/

/-- C16: the constructor leaves NumChannels at 0, and whenever NumChannels is
0 CheckBufferStatus returns the sentinel -42, makes no call to the vendor
library (neither the mask query nor a register read), leaves the hardware
state unchanged and leaves every entry of the output array as it was. -/
theorem CheckBufferStatus_no_channels {T : Type} (L : CAEN T) (w : World T)
    (buf : Nat → Bool) :
    (∀ base : ADAQDigitizer, (ADAQDigitizer.construct base).NumChannels = 0) ∧
    (w.self.NumChannels = 0 →
      (CheckBufferStatus L w buf).1 = -42 ∧
      (CheckBufferStatus L w buf).2.1.trace = w.trace ∧
      (CheckBufferStatus L w buf).2.1.hw = w.hw ∧
      (CheckBufferStatus L w buf).2.2 = buf) := by
  refine ⟨fun _ => rfl, ?_⟩
  intro h0
  simp [CheckBufferStatus, CheckBufferStatus.loop, World.setStatus, h0]

/-- Witness for C16 on the mock: a freshly constructed object. -/
theorem CheckBufferStatus_no_channels_witness :
    (world0 (ADAQDigitizer.construct board4) regs0).self.NumChannels = 0 ∧
    (CheckBufferStatus (mock (cfg0 5)) (world0 (ADAQDigitizer.construct board4) regs0)
      (fun _ => true)).1 = -42 ∧
    (CheckBufferStatus (mock (cfg0 5)) (world0 (ADAQDigitizer.construct board4) regs0)
      (fun _ => true)).2.1.trace = [] :=
  ⟨rfl,
    ((CheckBufferStatus_no_channels (mock (cfg0 5))
      (world0 (ADAQDigitizer.construct board4) regs0) (fun _ => true)).2 rfl).1,
    ((CheckBufferStatus_no_channels (mock (cfg0 5))
      (world0 (ADAQDigitizer.construct board4) regs0) (fun _ => true)).2 rfl).2.1⟩

/-- C17: with Verbose off, a successful OpenLink (from Closed, the transport's
open returning success) makes one call, the open, and no board-information
query; it changes only LinkEstablished, BoardHandle and CommandStatus, so
NumChannels, NumADCBits, MinADCBit and MaxADCBit keep their values (0 when the
object is as the constructor left it); the returned status and the resulting
link state are those of the same call with Verbose on. -/
theorem OpenLink_quiet {T : Type} (L : CAEN T) (w : World T)
    (hclosed : w.self.LinkEstablished = false)
    (hquiet : w.self.Verbose = false)
    (hopen : (L.OpenDigitizer w.hw CAEN_DGTZ_ConnectionType.CAEN_DGTZ_USB 0 0
      w.self.BoardAddress).1 = L.CAEN_DGTZ_Success) :
    (OpenLink L w).1 = L.CAEN_DGTZ_Success ∧
    (OpenLink L w).2.self = { w.self with
      LinkEstablished := true
      BoardHandle := (L.OpenDigitizer w.hw CAEN_DGTZ_ConnectionType.CAEN_DGTZ_USB 0 0
        w.self.BoardAddress).2.1.getD w.self.BoardHandle
      CommandStatus := L.CAEN_DGTZ_Success } ∧
    ((OpenLink L w).2.self.NumChannels = w.self.NumChannels ∧
      (OpenLink L w).2.self.NumADCBits = w.self.NumADCBits ∧
      (OpenLink L w).2.self.MinADCBit = w.self.MinADCBit ∧
      (OpenLink L w).2.self.MaxADCBit = w.self.MaxADCBit) ∧
    (∀ base, w.self = ADAQDigitizer.construct base →
      (OpenLink L w).2.self.NumChannels = 0 ∧ (OpenLink L w).2.self.NumADCBits = 0 ∧
      (OpenLink L w).2.self.MinADCBit = 0 ∧ (OpenLink L w).2.self.MaxADCBit = 0) ∧
    (OpenLink L w).2.trace = w.trace ++
      [Call.OpenDigitizer CAEN_DGTZ_ConnectionType.CAEN_DGTZ_USB 0 0 w.self.BoardAddress] ∧
    (∀ h, Call.GetInfo h ∉ (OpenLink L w).2.trace.drop w.trace.length) ∧
    (OpenLink L { w with self := { w.self with Verbose := true } }).1 = (OpenLink L w).1 ∧
    (OpenLink L { w with self := { w.self with Verbose := true } }).2.self.LinkEstablished =
      (OpenLink L w).2.self.LinkEstablished := by
  have hself : (OpenLink L w).2.self = { w.self with
      LinkEstablished := true
      BoardHandle := (L.OpenDigitizer w.hw CAEN_DGTZ_ConnectionType.CAEN_DGTZ_USB 0 0
        w.self.BoardAddress).2.1.getD w.self.BoardHandle
      CommandStatus := L.CAEN_DGTZ_Success } := by
    simp [OpenLink, World.setStatus, World.called, hclosed, hquiet, hopen]
  have htr : (OpenLink L w).2.trace = w.trace ++
      [Call.OpenDigitizer CAEN_DGTZ_ConnectionType.CAEN_DGTZ_USB 0 0 w.self.BoardAddress] := by
    simp [OpenLink, World.setStatus, World.called, hclosed, hquiet, hopen]
  refine ⟨?_, hself, ?_, ?_, htr, ?_, ?_, ?_⟩
  · simp [OpenLink, World.setStatus, World.called, hclosed, hquiet, hopen]
  · rw [hself]
    exact ⟨rfl, rfl, rfl, rfl⟩
  · intro base hb
    rw [hself, hb]
    exact ⟨rfl, rfl, rfl, rfl⟩
  · intro h hmem
    rw [htr, List.drop_left] at hmem
    simp at hmem
  · simp [OpenLink, World.setStatus, World.called, hclosed, hquiet, hopen]
  · simp [OpenLink, World.setStatus, World.called, hclosed, hquiet, hopen]

/-- Witness for C17 on the mock: a quiet, closed, freshly constructed object
on a board of 8 channels; after OpenLink the link is open and NumChannels is
still 0. -/
theorem OpenLink_quiet_witness :
    (world0 (ADAQDigitizer.construct (board0 false false)) regs0).self.LinkEstablished = false ∧
    (world0 (ADAQDigitizer.construct (board0 false false)) regs0).self.Verbose = false ∧
    (OpenLink (mock (cfg0 0))
      (world0 (ADAQDigitizer.construct (board0 false false)) regs0)).1 = 0 ∧
    (OpenLink (mock (cfg0 0))
      (world0 (ADAQDigitizer.construct (board0 false false)) regs0)).2.self.NumChannels = 0 ∧
    (OpenLink (mock (cfg0 0))
      (world0 (ADAQDigitizer.construct (board0 false false)) regs0)).2.trace =
      [Call.OpenDigitizer CAEN_DGTZ_ConnectionType.CAEN_DGTZ_USB 0 0 0] :=
  ⟨rfl, rfl,
    (OpenLink_quiet (mock (cfg0 0))
      (world0 (ADAQDigitizer.construct (board0 false false)) regs0) rfl rfl rfl).1,
    ((OpenLink_quiet (mock (cfg0 0))
      (world0 (ADAQDigitizer.construct (board0 false false)) regs0) rfl rfl rfl).2.2.2.1
        (board0 false false) rfl).1,
    (OpenLink_quiet (mock (cfg0 0))
      (world0 (ADAQDigitizer.construct (board0 false false)) regs0) rfl rfl rfl).2.2.2.2.1⟩

/-- C18: for every transport and every level, SetTriggerCoincidence(true, level)
makes exactly two calls, a read of register 0x810C and then a write to
register 0x810C, and returns the status of the write, whatever the read
reported.  The value written is the value the read delivered, or 0 if it
delivered none, OR level << 24.  When the read delivers no value, the value
written is 0 OR (level << 24), which is level << 24 and has bits 0..23 zero. -/
theorem SetTriggerCoincidence_calls {T : Type} (L : CAEN T) (w : World T) (Level : Int) :
    (SetTriggerCoincidence L w true Level).2.trace = w.trace ++
      [Call.ReadRegister w.self.BoardHandle 0x810C,
        Call.WriteRegister w.self.BoardHandle 0x810C
          ((L.ReadRegister w.hw w.self.BoardHandle 0x810C).2.1.getD 0 |||
            toUInt32 (Level * 2 ^ 24))] ∧
    (SetTriggerCoincidence L w true Level).1 =
      (L.WriteRegister (L.ReadRegister w.hw w.self.BoardHandle 0x810C).2.2
        w.self.BoardHandle 0x810C
        ((L.ReadRegister w.hw w.self.BoardHandle 0x810C).2.1.getD 0 |||
          toUInt32 (Level * 2 ^ 24))).1 ∧
    ((L.ReadRegister w.hw w.self.BoardHandle 0x810C).2.1 = none →
      (SetTriggerCoincidence L w true Level).2.trace = w.trace ++
        [Call.ReadRegister w.self.BoardHandle 0x810C,
          Call.WriteRegister w.self.BoardHandle 0x810C (0 ||| toUInt32 (Level * 2 ^ 24))] ∧
      (0 ||| toUInt32 (Level * 2 ^ 24)) = toUInt32 (Level * 2 ^ 24) ∧
      (0 ||| toUInt32 (Level * 2 ^ 24)) % 2 ^ 24 = 0 ∧
      (∀ level : Nat, level ≤ 15 → Level = (level : Int) →
        (0 ||| toUInt32 (Level * 2 ^ 24)) = level <<< 24) ∧
      (SetTriggerCoincidence L w true Level).1 =
        (L.WriteRegister (L.ReadRegister w.hw w.self.BoardHandle 0x810C).2.2
          w.self.BoardHandle 0x810C (0 ||| toUInt32 (Level * 2 ^ 24))).1) := by
  have htr : (SetTriggerCoincidence L w true Level).2.trace = w.trace ++
      [Call.ReadRegister w.self.BoardHandle 0x810C,
        Call.WriteRegister w.self.BoardHandle 0x810C
          ((L.ReadRegister w.hw w.self.BoardHandle 0x810C).2.1.getD 0 |||
            toUInt32 (Level * 2 ^ 24))] := by
    simp [SetTriggerCoincidence, GetRegisterValue, SetRegisterValue, CAEN_DGTZ_ReadRegister,
      CAEN_DGTZ_WriteRegister, World.setStatus, World.called]
  have hst : (SetTriggerCoincidence L w true Level).1 =
      (L.WriteRegister (L.ReadRegister w.hw w.self.BoardHandle 0x810C).2.2
        w.self.BoardHandle 0x810C
        ((L.ReadRegister w.hw w.self.BoardHandle 0x810C).2.1.getD 0 |||
          toUInt32 (Level * 2 ^ 24))).1 := by
    simp [SetTriggerCoincidence, GetRegisterValue, SetRegisterValue, CAEN_DGTZ_ReadRegister,
      CAEN_DGTZ_WriteRegister, World.setStatus, World.called]
  refine ⟨htr, hst, ?_⟩
  intro hnone
  rw [hnone] at htr hst
  refine ⟨htr, Nat.zero_or _, ?_, ?_, hst⟩
  · rw [Nat.zero_or]
    exact toUInt32_shift_low Level
  · intro level hl hL
    rw [Nat.zero_or, hL]
    exact toUInt32_shift level hl

/-- Witness for C18 on a transport whose reads fail with status -1 and deliver
nothing: on a register holding 0x80, level 5 makes the write of 0x05000000. -/
theorem SetTriggerCoincidence_calls_witness :
    ((faulty (cfg0 0) (fun _ => -1) false).ReadRegister
      (world0 board4 (fun _ => 0x80)).hw (world0 board4 (fun _ => 0x80)).self.BoardHandle
      0x810C).2.1 = none ∧
    (SetTriggerCoincidence (faulty (cfg0 0) (fun _ => -1) false)
      (world0 board4 (fun _ => 0x80)) true 5).2.trace =
      [Call.ReadRegister 0 0x810C, Call.WriteRegister 0 0x810C 0x05000000] :=
  ⟨rfl,
    ((SetTriggerCoincidence_calls (faulty (cfg0 0) (fun _ => -1) false)
      (world0 board4 (fun _ => 0x80)) 5).2.2 rfl).1⟩

/-! ## Which status an operation returns -/

/-- The loop run for n + 1 iterations is its first iteration followed by the
other n. -/
theorem CheckBufferStatus.loop_step {T : Type} (L : CAEN T) (Start Offset : Nat)
    (n ch : Nat) (w : World T) (buf : Nat → Bool) :
    CheckBufferStatus.loop L Start Offset (n + 1) ch w buf =
      CheckBufferStatus.loop L Start Offset n (ch + 1)
        (CheckBufferStatus.loop L Start Offset 1 ch w buf).1
        (CheckBufferStatus.loop L Start Offset 1 ch w buf).2 := by
  by_cases hc : (L.GetChannelEnableMask w.hw w.self.BoardHandle).2.1.getD 0 &&&
      (1 <<< (ch % 32)) = 0
  · simp only [CheckBufferStatus.loop, GetChannelEnableMask, hc, if_true]
  · simp only [CheckBufferStatus.loop, GetChannelEnableMask, hc, if_false]

/-- The loop run for n + 1 iterations is its first n iterations followed by
the last one. -/
theorem CheckBufferStatus.loop_succ_last {T : Type} (L : CAEN T) (Start Offset : Nat) :
    ∀ (n ch : Nat) (w : World T) (buf : Nat → Bool),
      CheckBufferStatus.loop L Start Offset (n + 1) ch w buf =
        CheckBufferStatus.loop L Start Offset 1 (ch + n)
          (CheckBufferStatus.loop L Start Offset n ch w buf).1
          (CheckBufferStatus.loop L Start Offset n ch w buf).2 := by
  intro n
  induction n with
  | zero => intro ch w buf; rfl
  | succ n ih =>
    intro ch w buf
    have e : ch + (n + 1) = ch + 1 + n := by omega
    rw [CheckBufferStatus.loop_step L Start Offset (n + 1), ih, e,
      ← CheckBufferStatus.loop_step L Start Offset n]

/-- The status left in CommandStatus by one iteration of the loop: that of the
mask query when the channel is skipped, that of the register read otherwise. -/
theorem CheckBufferStatus.loop_one_status {T : Type} (L : CAEN T) (Start Offset : Nat)
    (ch : Nat) (w : World T) (buf : Nat → Bool) :
    (CheckBufferStatus.loop L Start Offset 1 ch w buf).1.self.CommandStatus =
      if (L.GetChannelEnableMask w.hw w.self.BoardHandle).2.1.getD 0 &&&
          (1 <<< (ch % 32)) = 0
      then (L.GetChannelEnableMask w.hw w.self.BoardHandle).1
      else (L.ReadRegister (L.GetChannelEnableMask w.hw w.self.BoardHandle).2.2
        w.self.BoardHandle ((Start + Offset * ch) % 2 ^ 32)).1 := by
  by_cases hc : (L.GetChannelEnableMask w.hw w.self.BoardHandle).2.1.getD 0 &&&
      (1 <<< (ch % 32)) = 0
  · simp only [CheckBufferStatus.loop, GetChannelEnableMask, hc, if_true, World.setStatus]
  · simp only [CheckBufferStatus.loop, GetChannelEnableMask, hc, if_false, World.setStatus,
      World.called, CAEN_DGTZ_ReadRegister]

/-- C11, as the code has it, for the six operations that read or write
registers and return a status: each returns the status of the last call it
makes to the transport, so a non-success status of that call is returned as
it is, while the status of an earlier call of the same operation is
overwritten.
SetRegisterValue, GetRegisterValue and GetNumFPGAEvents make one call and
return its status.  SetTriggerCoincidence(true, level) and
EnableExternalTrigger return the status of their register write, made after
the read.  CheckBufferStatus with NumChannels = n + 1 returns the status of
the last call of its last iteration, made in the state r that the first n
iterations reach: the mask query if channel n is skipped, the read of the
status register of channel n otherwise. -/
theorem last_call_status_returned {T : Type} (L : CAEN T) (w : World T) (Level : Int)
    (s : String) (buf : Nat → Bool) (n a v d : Nat) :
    (SetRegisterValue L w a v).1 = (L.WriteRegister w.hw w.self.BoardHandle a v).1 ∧
    (GetRegisterValue L w a d).1 = (L.ReadRegister w.hw w.self.BoardHandle a).1 ∧
    (GetNumFPGAEvents L w d).1 =
      (L.ReadRegister w.hw w.self.BoardHandle L.CAEN_DGTZ_EVENT_STORED_ADD).1 ∧
    (SetTriggerCoincidence L w true Level).1 =
      (L.WriteRegister (L.ReadRegister w.hw w.self.BoardHandle 0x810C).2.2
        w.self.BoardHandle 0x810C
        ((L.ReadRegister w.hw w.self.BoardHandle 0x810C).2.1.getD 0 |||
          toUInt32 (Level * 2 ^ 24))).1 ∧
    (∀ rd, rd = L.ReadRegister
        (L.SetExtTriggerInputMode w.hw w.self.BoardHandle
          CAEN_DGTZ_TriggerMode_t.CAEN_DGTZ_TRGMODE_ACQ_AND_EXTOUT).2
        w.self.BoardHandle L.CAEN_DGTZ_FRONT_PANEL_IO_CTRL_ADD →
      (EnableExternalTrigger L w s).1 =
        (L.WriteRegister rd.2.2 w.self.BoardHandle L.CAEN_DGTZ_FRONT_PANEL_IO_CTRL_ADD
          (if s = "NIM" then rd.2.1.getD 0 &&& toUInt32 (-2)
            else if s = "TTL" then rd.2.1.getD 0 ||| 1
            else rd.2.1.getD 0)).1) ∧
    (∀ r, r = CheckBufferStatus.loop L L.CAEN_DGTZ_CHANNEL_STATUS_BASE_ADDRESS 0x0100 n 0
        (w.setStatus (-42)) buf →
      w.self.NumChannels = (n : Int) + 1 →
      (CheckBufferStatus L w buf).1 =
        if (L.GetChannelEnableMask r.1.hw r.1.self.BoardHandle).2.1.getD 0 &&&
            (1 <<< (n % 32)) = 0
        then (L.GetChannelEnableMask r.1.hw r.1.self.BoardHandle).1
        else (L.ReadRegister (L.GetChannelEnableMask r.1.hw r.1.self.BoardHandle).2.2
          r.1.self.BoardHandle
          ((L.CAEN_DGTZ_CHANNEL_STATUS_BASE_ADDRESS + 0x0100 * n) % 2 ^ 32)).1) := by
  refine ⟨?_, ?_, ?_, ?_, ?_, ?_⟩
  · simp [SetRegisterValue, CAEN_DGTZ_WriteRegister, World.setStatus, World.called]
  · simp [GetRegisterValue, CAEN_DGTZ_ReadRegister, World.setStatus, World.called]
  · simp [GetNumFPGAEvents, GetRegisterValue, CAEN_DGTZ_ReadRegister, World.setStatus,
      World.called]
  · simp [SetTriggerCoincidence, GetRegisterValue, SetRegisterValue, CAEN_DGTZ_ReadRegister,
      CAEN_DGTZ_WriteRegister, World.setStatus, World.called]
  · intro rd hrd
    rw [hrd]
    simp only [EnableExternalTrigger, SetExtTriggerInputMode, GetRegisterValue,
      SetRegisterValue, CAEN_DGTZ_ReadRegister, CAEN_DGTZ_WriteRegister, World.setStatus,
      World.called]
  · intro r hr hN
    have hn : (w.setStatus (-42)).self.NumChannels.toNat = n + 1 := by
      show w.self.NumChannels.toNat = n + 1
      omega
    have h := CheckBufferStatus.loop_one_status L L.CAEN_DGTZ_CHANNEL_STATUS_BASE_ADDRESS
      0x0100 (0 + n) r.1 r.2
    rw [hr, ← CheckBufferStatus.loop_succ_last, ← hr, Nat.zero_add] at h
    simp only [CheckBufferStatus, hn]
    exact h

/-- Witness for C11 on a transport whose reads of the status register of
channel 1 fail with status -1: with two enabled channels the last call of
CheckBufferStatus is that read, and -1 is returned. -/
theorem last_call_status_returned_witness :
    (world0 { board4 with NumChannels := 2 } regs0).self.NumChannels = ((1 : Nat) : Int) + 1 ∧
    (CheckBufferStatus (faulty (cfg0 3) (fun a => if a = 0x1188 then -1 else 0) true)
      (world0 { board4 with NumChannels := 2 } regs0) (fun _ => false)).1 = -1 :=
  ⟨rfl,
    ((last_call_status_returned (faulty (cfg0 3) (fun a => if a = 0x1188 then -1 else 0) true)
      (world0 { board4 with NumChannels := 2 } regs0) 0 "" (fun _ => false) 1 0 0 0).2.2.2.2.2
      _ rfl rfl).trans rfl⟩

/-- C11 fails as stated.  On a transport whose register reads report the
status -1, SetTriggerCoincidence(true, 5) and EnableExternalTrigger("NIM")
make their read, then their write, and return the write's status, success.
On a transport where only the read of the status register of channel 0 (at
0x1088) reports -1, CheckBufferStatus with two enabled channels makes that
read, goes on to channel 1 and returns success. -/
theorem last_call_status_returned_counterexample :
    (((faulty (cfg0 0) (fun _ => -1) true).ReadRegister (fun _ => 0x80) 0 0x810C).1 = -1 ∧
      (-1 : Int) ≠ (faulty (cfg0 0) (fun _ => -1) true).CAEN_DGTZ_Success ∧
      (SetTriggerCoincidence (faulty (cfg0 0) (fun _ => -1) true)
        (world0 board4 (fun _ => 0x80)) true 5).2.trace =
        [Call.ReadRegister 0 0x810C, Call.WriteRegister 0 0x810C 0x05000080] ∧
      (SetTriggerCoincidence (faulty (cfg0 0) (fun _ => -1) true)
        (world0 board4 (fun _ => 0x80)) true 5).1 =
        (faulty (cfg0 0) (fun _ => -1) true).CAEN_DGTZ_Success) ∧
    (((faulty (cfg0 0) (fun _ => -1) true).ReadRegister (fun _ => 0x83) 0 0x811C).1 = -1 ∧
      (EnableExternalTrigger (faulty (cfg0 0) (fun _ => -1) true)
        (world0 board4 (fun _ => 0x83)) "NIM").2.trace =
        [Call.SetExtTriggerInputMode 0 CAEN_DGTZ_TriggerMode_t.CAEN_DGTZ_TRGMODE_ACQ_AND_EXTOUT,
          Call.ReadRegister 0 0x811C, Call.WriteRegister 0 0x811C 0x82] ∧
      (EnableExternalTrigger (faulty (cfg0 0) (fun _ => -1) true)
        (world0 board4 (fun _ => 0x83)) "NIM").1 =
        (faulty (cfg0 0) (fun _ => -1) true).CAEN_DGTZ_Success) ∧
    (((faulty (cfg0 3) (fun a => if a = 0x1088 then -1 else 0) true).ReadRegister
        regs0 0 0x1088).1 = -1 ∧
      (CheckBufferStatus (faulty (cfg0 3) (fun a => if a = 0x1088 then -1 else 0) true)
        (world0 { board4 with NumChannels := 2 } regs0) (fun _ => false)).2.1.trace =
        [Call.GetChannelEnableMask 0, Call.ReadRegister 0 0x1088,
          Call.GetChannelEnableMask 0, Call.ReadRegister 0 0x1188] ∧
      (CheckBufferStatus (faulty (cfg0 3) (fun a => if a = 0x1088 then -1 else 0) true)
        (world0 { board4 with NumChannels := 2 } regs0) (fun _ => false)).1 =
        (faulty (cfg0 3) (fun a => if a = 0x1088 then -1 else 0) true).CAEN_DGTZ_Success) := by
  refine ⟨⟨rfl, by decide, ?_, rfl⟩, ⟨rfl, ?_, rfl⟩, ⟨rfl, ?_, rfl⟩⟩
  · rfl
  · rfl
  · rfl

end ADAQ
